import Mathlib

/-!
# Verification of the horary judgment engine (`backend/horary_engine.py`)

Shallow embedding of the parts of `backend/horary_engine.py` that the
claims C1-C10 are about.  Python floats are modelled as `ℚ` (all the
relevant code is field arithmetic, `%`, `abs`, `min`/`max` and
comparisons), Python ints as `ℤ`/`ℚ`, Python strings as `String`,
Python `None`-able values as `Option`.

Two dynamic-semantics facts of the source are modelled once and used in
several definitions:

* `PlanetPosition` is a `@dataclass` with fields
  `planet, longitude, latitude, house, sign, dignity_score, retrograde,
  speed` and nothing in the module ever assigns a `solar_condition`
  attribute to one (solar analyses are stored separately in
  `HoraryChart.solar_analyses`; only the *serialized frontend dict* has a
  `'solar_condition'` key).  Hence every `hasattr(pos, 'solar_condition')`
  the module performs evaluates to `False`; see `hasattrSolarCondition`.

* `Aspect` is a plain `Enum` (its values are tuples), so comparisons such
  as `querent_aspect.aspect in ["Square", "Opposition"]` compare an enum
  member with strings and are always `False`; see `aspectEqPyStr`.
-/

namespace Horary

/-- The seven traditional bodies (`Planet` enum; the two chart points
`ASC`/`MC` never enter the judgment code modelled here). -/
inductive Planet where
  | sun | moon | mercury | venus | mars | jupiter | saturn
  deriving DecidableEq, Repr

/-- The twelve zodiacal signs (`Sign` enum). -/
inductive Sign where
  | aries | taurus | gemini | cancer | leo | virgo
  | libra | scorpio | sagittarius | capricorn | aquarius | pisces
  deriving DecidableEq, Repr, Fintype

/-- The five Ptolemaic aspects (`Aspect` enum). -/
inductive Aspect where
  | conjunction | sextile | square | trine | opposition
  deriving DecidableEq, Repr

/-- `Aspect.degrees`. -/
def Aspect.degrees : Aspect → ℚ
  | .conjunction => 0
  | .sextile => 60
  | .square => 90
  | .trine => 120
  | .opposition => 180

/-- Python iterates `for aspect_type in Aspect:` in declaration order. -/
def aspectOrder : List Aspect :=
  [.conjunction, .sextile, .square, .trine, .opposition]

/-- `Sign.start_degree` from the `Sign` enum values. -/
def Sign.start_degree : Sign → ℚ
  | .aries => 0 | .taurus => 30 | .gemini => 60 | .cancer => 90
  | .leo => 120 | .virgo => 150 | .libra => 180 | .scorpio => 210
  | .sagittarius => 240 | .capricorn => 270 | .aquarius => 300
  | .pisces => 330

/-- `Sign.ruler` (domicile rulers) from the `Sign` enum values. -/
def Sign.ruler : Sign → Planet
  | .aries => .mars | .taurus => .venus | .gemini => .mercury
  | .cancer => .moon | .leo => .sun | .virgo => .mercury
  | .libra => .venus | .scorpio => .mars | .sagittarius => .jupiter
  | .capricorn => .saturn | .aquarius => .saturn | .pisces => .jupiter

/-- `SolarCondition` enum. -/
inductive SolarCondition where
  | cazimi | combustion | underBeams | free
  deriving DecidableEq, Repr

/-- `condition_name` attribute of `SolarCondition`. -/
def SolarCondition.condition_name : SolarCondition → String
  | .cazimi => "Cazimi"
  | .combustion => "Combustion"
  | .underBeams => "Under the Beams"
  | .free => "Free of Sun"

/-- `SolarAnalysis` dataclass (the fields the judgment code reads). -/
structure SolarAnalysis where
  distance_from_sun : ℚ
  condition : SolarCondition
  exact_cazimi : Bool := false
  traditional_exception : Bool := false
  deriving DecidableEq, Repr

/-- `PlanetPosition` dataclass. -/
structure PlanetPosition where
  longitude : ℚ
  latitude : ℚ := 0
  house : ℤ
  sign : Sign
  dignity_score : ℤ
  retrograde : Bool := false
  speed : ℚ
  deriving DecidableEq, Repr

/-- The `PlanetPosition` dataclass declares no `solar_condition` field and
no statement in the module sets one on a position object, so
`hasattr(pos, 'solar_condition')` is `False` for every position. -/
def hasattrSolarCondition (_ : PlanetPosition) : Bool := false

/-- Python `Enum` members are only equal to themselves, never to a
string; `Aspect.SQUARE == "Square"` is `False`.  This models every
comparison of an `Aspect` member against a string literal. -/
def aspectEqPyStr (_ : Aspect) (_ : String) : Bool := false

/-- Likewise `SolarCondition.COMBUSTION == "Combustion"` is `False`
(the comparisons at lines 3627/4486/4739 compare the enum member stored
in a `SolarAnalysis` with a string). -/
def solarCondEqPyStr (_ : SolarCondition) (_ : String) : Bool := false

/-- `AspectInfo` dataclass (the `exact_time : datetime` field is not
modelled; no claim reads it). -/
structure AspectInfo where
  planet1 : Planet
  planet2 : Planet
  aspect : Aspect
  orb : ℚ
  applying : Bool
  degrees_to_exact : ℚ := 0
  deriving DecidableEq, Repr

/-- `LunarAspect` dataclass (without the human-readable ETA string).
`eta_inf` marks a `perfection_eta_days` of `float('inf')` (zero relative
speed). -/
structure LunarAspect where
  planet : Planet
  aspect : Aspect
  orb : ℚ
  degrees_difference : ℚ
  perfection_eta_days : ℚ
  eta_inf : Bool := false
  applying : Bool := true
  deriving DecidableEq, Repr

/-- `HoraryChart`, restricted to the fields the modelled code reads.
`planetOrder` records the iteration order of the `planets` dict (its
keys, in insertion order); `planets` is the dict lookup. -/
structure HoraryChart where
  planetOrder : List Planet
  planets : Planet → PlanetPosition
  aspects : List AspectInfo
  houses : Fin 12 → ℚ
  house_rulers : List (ℤ × Planet)
  solar_analyses : List (Planet × SolarAnalysis)
  moon_next_aspect : Option LunarAspect := none

/-- Python float `%` with a positive modulus (`a % b = a - b*⌊a/b⌋`). -/
def pyMod (a b : ℚ) : ℚ := a - b * (⌊a / b⌋ : ℤ)

/-- The two normalisation `while` loops
(`while s > 180: s -= 360` / `while s < -180: s += 360`). -/
def norm180 (x : ℚ) : ℚ :=
  if 180 < x then x - 360 * (⌈(x - 180) / 360⌉ : ℤ)
  else if x < -180 then x + 360 * (⌈(-180 - x) / 360⌉ : ℤ)
  else x

/-- `_calculate_house_position(longitude, houses)` (the identical helper
appears at lines 1269 and 2249): first cusp interval containing the
longitude, 1-based; falls back to 1. -/
def calculate_house_position (longitude : ℚ) (houses : Fin 12 → ℚ) : ℤ :=
  let lon := pyMod longitude 360
  let hit : Option (Fin 12) := (List.finRange 12).find? fun i =>
    let c := pyMod (houses i) 360
    let n := pyMod (houses (i + 1)) 360
    if n < c then decide (c ≤ lon) || decide (lon < n)
    else decide (c ≤ lon) && decide (lon < n)
  match hit with
  | some i => (i : ℤ) + 1
  | none => 1

/-- `TraditionalReceptionCalculator.exaltations` table. -/
def exaltations : Planet → Sign
  | .sun => .aries
  | .moon => .taurus
  | .mercury => .virgo
  | .venus => .pisces
  | .mars => .capricorn
  | .jupiter => .cancer
  | .saturn => .libra

/-- `TraditionalReceptionCalculator.triplicity_rulers` (lines 1097-1118):
day/night triplicity ruler per sign.  Water signs: day = Mars,
night = Venus. -/
def receptionTriplicityRuler (s : Sign) (isDay : Bool) : Planet :=
  match s, isDay with
  | .aries, true | .leo, true | .sagittarius, true => .sun
  | .aries, false | .leo, false | .sagittarius, false => .jupiter
  | .taurus, true | .virgo, true | .capricorn, true => .venus
  | .taurus, false | .virgo, false | .capricorn, false => .moon
  | .gemini, true | .libra, true | .aquarius, true => .saturn
  | .gemini, false | .libra, false | .aquarius, false => .mercury
  | .cancer, true | .scorpio, true | .pisces, true => .mars
  | .cancer, false | .scorpio, false | .pisces, false => .venus

/-- The `triplicity_rulers` table inside
`EnhancedTraditionalAstrologicalCalculator._calculate_triplicity_dignity`
(lines 1917-1937).  Water signs: day = Venus, night = Mars. -/
def dignityTriplicityRuler (s : Sign) (isDay : Bool) : Planet :=
  match s, isDay with
  | .aries, true | .leo, true | .sagittarius, true => .sun
  | .aries, false | .leo, false | .sagittarius, false => .jupiter
  | .taurus, true | .virgo, true | .capricorn, true => .venus
  | .taurus, false | .virgo, false | .capricorn, false => .moon
  | .gemini, true | .libra, true | .aquarius, true => .saturn
  | .gemini, false | .libra, false | .aquarius, false => .mercury
  | .cancer, true | .scorpio, true | .pisces, true => .venus
  | .cancer, false | .scorpio, false | .pisces, false => .mars

/-- `_has_triplicity_dignity` (reception calculator). -/
def has_triplicity_dignity (planet : Planet) (sign : Sign) (isDay : Bool) : Bool :=
  receptionTriplicityRuler sign isDay == planet

/-- `_check_all_dignities(receiving_planet, received_position, is_day)`:
the dignities by which the receiving planet receives the received
position. -/
def check_all_dignities (receiving : Planet) (received : PlanetPosition)
    (isDay : Bool) : List String :=
  (if received.sign.ruler == receiving then ["domicile"] else []) ++
  (if exaltations receiving == received.sign then ["exaltation"] else []) ++
  (if has_triplicity_dignity receiving received.sign isDay then ["triplicity"] else [])

/-- `_classify_reception` restricted to the type string (the `details`
dict is only used for display/strength, which no modelled caller
reads). -/
def classify_reception (r12 r21 : List String) : String :=
  if r12.isEmpty && r21.isEmpty then "none"
  else if r12.contains "domicile" && r21.contains "domicile" then "mutual_rulership"
  else if r12.contains "exaltation" && r21.contains "exaltation" then "mutual_exaltation"
  else if !r12.isEmpty && !r21.isEmpty then "mixed_reception"
  else "unilateral"

/-- Day chart test used by `calculate_comprehensive_reception`:
`sun_house in [7..12]` ("Sun below horizon ⇒ day chart"). -/
def chart_is_day (chart : HoraryChart) : Bool :=
  let h := calculate_house_position (chart.planets .sun).longitude chart.houses
  [7, 8, 9, 10, 11, 12].contains h

/-- Result record of `calculate_comprehensive_reception` (the fields the
modelled callers read). -/
structure ReceptionData where
  rtype : String
  planet1_receives_planet2 : List String
  planet2_receives_planet1 : List String
  day_chart : Bool
  deriving DecidableEq, Repr

/-- `TraditionalReceptionCalculator.calculate_comprehensive_reception`. -/
def calculate_comprehensive_reception (chart : HoraryChart)
    (planet1 planet2 : Planet) : ReceptionData :=
  let pos1 := chart.planets planet1
  let pos2 := chart.planets planet2
  let isDay := chart_is_day chart
  let r12 := check_all_dignities planet1 pos2 isDay
  let r21 := check_all_dignities planet2 pos1 isDay
  { rtype := classify_reception r12 r21
    planet1_receives_planet2 := r12
    planet2_receives_planet1 := r21
    day_chart := isDay }

/-- `_detect_reception_between_planets` / `_check_enhanced_mutual_reception`
(both just return the centralized calculator's type). -/
def reception_type (chart : HoraryChart) (p1 p2 : Planet) : String :=
  (calculate_comprehensive_reception chart p1 p2).rtype

/-- `_check_dignified_reception(receiving, received)`:
`len(planet1_receives_planet2) > 0`. -/
def check_dignified_reception (chart : HoraryChart)
    (receiving received : Planet) : Bool :=
  !(calculate_comprehensive_reception chart receiving received).planet1_receives_planet2.isEmpty

/-- `_apply_confidence_threshold(result, confidence)` (lines 4890-4905;
the `reasoning` list is write-only there). -/
def apply_confidence_threshold (result : String) (confidence : ℚ) :
    String × ℚ :=
  if confidence < 50 then
    if result == "YES" then
      if confidence < 30 then ("NO", max confidence 20)
      else ("INCONCLUSIVE", confidence)
    else (result, confidence)
  else (result, confidence)

/-- The configuration snapshot (`horary_config` is an external
collaborator; these are the constants the modelled code reads from it,
kept abstract as inputs).  `moieties = none` models a config whose
`orbs` section has no `moieties` attribute (legacy fallback). -/
structure Config where
  base_confidence : ℚ := 70
  cazimi_bonus : ℚ := 15
  direct_with_mutual_rulership : ℚ := 95
  direct_with_mutual_exaltation : ℚ := 85
  direct_basic : ℚ := 75
  translation_of_light : ℚ := 75
  collection_of_light : ℚ := 70
  reception_only : ℚ := 65
  aspect_orb : Aspect → ℚ := fun _ => 8
  sun_orb_bonus : ℚ := 0
  moon_orb_bonus : ℚ := 0
  moieties : Option (Planet → ℚ) := none
  void_orb_deg : ℚ := 5
  void_rule : String := "by_sign"
  void_exception_cancer : Bool := true
  void_exception_sagittarius : Bool := true
  void_exception_taurus : Bool := true
  stationary_speed_threshold : ℚ := 1/10
  timing_precision_days : ℚ := 1/10
  require_speed_advantage : Bool := true
  require_proper_sequence : Bool := true

/-- Modelled from the spec: `_horary_math.days_to_sign_exit` is imported
from a module that is not under `src/`.  §4.2 requires "days until each
planet exits its current sign (directional)", and the in-repo fallback
`_days_to_sign_exit` (lines 4826-4830) computes exactly
`(30 - lon%30)/|speed|` for direct motion, `(lon%30)/|speed|` for
retrograde, `None` for a stationary body. -/
def days_to_sign_exit (lon speed : ℚ) : Option ℚ :=
  if speed > 0 then some ((30 - pyMod lon 30) / speed)
  else if speed < 0 then some (pyMod lon 30 / (-speed))
  else none

/-- Python truthiness of an `Option ℚ`: `None` and `0.0` are falsy. -/
def truthyQ : Option ℚ → Bool
  | none => false
  | some d => d != 0

/-- `x > y` where `x` may be `float('inf')` (`none`). -/
def gtInf : Option ℚ → ℚ → Bool
  | none, _ => true
  | some a, d => a > d

/-- Python `min(targets, key=lambda t: abs(separation - t))`: first
element with minimal key. -/
def pickClosest (separation : ℚ) : List ℚ → ℚ
  | [] => 0
  | t :: ts => ts.foldl (fun best t' =>
      if |separation - t'| < |separation - best| then t' else best) t

/-- `_calculate_moiety_based_orb` (lines 2123-2147). -/
def calculate_moiety_based_orb (cfg : Config) (p1 p2 : Planet)
    (a : Aspect) : ℚ :=
  match cfg.moieties with
  | none => 0
  | some m =>
    let combined := m p1 + m p2
    if a == .conjunction || a == .opposition then combined
    else if a == .trine || a == .square then combined * (85/100)
    else if a == .sextile then combined * (7/10)
    else combined * (8/10)

/-- `faster, slower` selection of `_is_applying_enhanced`
(`abs(pos1.speed) > abs(pos2.speed)` picks `pos1`, ties pick `pos2`). -/
def applyingFaster (pos1 pos2 : PlanetPosition) : PlanetPosition :=
  if |pos1.speed| > |pos2.speed| then pos1 else pos2

/-- The other body of the `faster, slower` selection. -/
def applyingSlower (pos1 pos2 : PlanetPosition) : PlanetPosition :=
  if |pos1.speed| > |pos2.speed| then pos2 else pos1

/-- The normalised separation `faster.longitude - slower.longitude`. -/
def applyingSeparation (pos1 pos2 : PlanetPosition) : ℚ :=
  norm180 ((applyingFaster pos1 pos2).longitude -
    (applyingSlower pos1 pos2).longitude)

/-- The target list and `min(targets, key=...)` selection of
`_is_applying_enhanced`. -/
def applyingClosestTarget (pos1 pos2 : PlanetPosition) (aspect : Aspect) : ℚ :=
  let target := aspect.degrees
  let targets :=
    [target, -target] ++
      (if target != 0 && target != 180 then [target - 360, -target + 360]
       else [])
  pickClosest (applyingSeparation pos1 pos2) targets

/-- `current_orb` of `_is_applying_enhanced`. -/
def applyingCurrentOrb (pos1 pos2 : PlanetPosition) (aspect : Aspect) : ℚ :=
  |applyingSeparation pos1 pos2 - applyingClosestTarget pos1 pos2 aspect|

/-- `days_to_perfect` of `_is_applying_enhanced` (`none` is
`float('inf')`, the zero relative-speed case). -/
def applyingDaysToPerfect (pos1 pos2 : PlanetPosition) (aspect : Aspect) :
    Option ℚ :=
  let rel := |(applyingFaster pos1 pos2).speed - (applyingSlower pos1 pos2).speed|
  if rel > 0 then some (applyingCurrentOrb pos1 pos2 aspect / rel) else none

/-- `future_orb` of `_is_applying_enhanced`: the orb after projecting
both bodies forward by `timing_precision_days` at their signed speeds. -/
def applyingFutureOrb (cfg : Config) (pos1 pos2 : PlanetPosition)
    (aspect : Aspect) : ℚ :=
  let future_separation :=
    norm180 (applyingSeparation pos1 pos2 +
      ((applyingFaster pos1 pos2).speed - (applyingSlower pos1 pos2).speed) *
        cfg.timing_precision_days)
  |future_separation - applyingClosestTarget pos1 pos2 aspect|

/-- `_is_applying_enhanced` (lines 2149-2205): the orb must shrink over
`timing_precision_days`, and the aspect must perfect before either body
leaves its sign — but a sign-exit time of `None` *or exactly `0.0`* is
skipped (`if faster_days_to_exit and ...` uses Python truthiness). -/
def is_applying_enhanced (cfg : Config) (pos1 pos2 : PlanetPosition)
    (aspect : Aspect) : Bool :=
  let faster := applyingFaster pos1 pos2
  let slower := applyingSlower pos1 pos2
  let days_to_perfect := applyingDaysToPerfect pos1 pos2 aspect
  let faster_exit := days_to_sign_exit faster.longitude faster.speed
  let slower_exit := days_to_sign_exit slower.longitude slower.speed
  if truthyQ faster_exit &&
      gtInf days_to_perfect (faster_exit.getD 0) then false
  else if truthyQ slower_exit &&
      gtInf days_to_perfect (slower_exit.getD 0) then false
  else applyingFutureOrb cfg pos1 pos2 aspect <
    applyingCurrentOrb pos1 pos2 aspect

/-- `_calculate_enhanced_degrees_to_exact` (degrees only; the exact-time
datetime is not modelled — no claim reads it). -/
def calculate_enhanced_degrees_to_exact (pos1 pos2 : PlanetPosition)
    (aspect : Aspect) : ℚ :=
  let separation := |pos1.longitude - pos2.longitude|
  let separation := if separation > 180 then 360 - separation else separation
  let orb_from_exact := |separation - aspect.degrees|
  if orb_from_exact < 1/10 then 1/10 else orb_from_exact

/-- Inner loop of `_calculate_enhanced_aspects` for one pair: first
aspect type (in enum order) whose separation is within the
moiety-based orb (or the legacy orb when the moiety table is absent);
`break` after the first hit. -/
def pairAspect (cfg : Config) (p1 p2 : Planet)
    (pos1 pos2 : PlanetPosition) : Option AspectInfo :=
  let angle := |pos1.longitude - pos2.longitude|
  let angle := if angle > 180 then 360 - angle else angle
  (aspectOrder.find? fun a =>
      let orb_diff := |angle - a.degrees|
      let max_orb := calculate_moiety_based_orb cfg p1 p2 a
      let max_orb :=
        if max_orb == 0 then
          cfg.aspect_orb a +
            (if p1 == .sun || p2 == .sun then cfg.sun_orb_bonus else 0) +
            (if p1 == .moon || p2 == .moon then cfg.moon_orb_bonus else 0)
        else max_orb
      orb_diff ≤ max_orb).map fun a =>
    { planet1 := p1
      planet2 := p2
      aspect := a
      orb :=
        let orb_diff := |angle - a.degrees|
        orb_diff
      applying := is_applying_enhanced cfg pos1 pos2 a
      degrees_to_exact := calculate_enhanced_degrees_to_exact pos1 pos2 a }

/-- The ordered pairs `(planet_list[i], planet_list[j])`, `i < j`,
traversed by `_calculate_enhanced_aspects`. -/
def orderedPairs : List Planet → List (Planet × Planet)
  | [] => []
  | p :: ps => ps.map (fun q => (p, q)) ++ orderedPairs ps

/-- `_calculate_enhanced_aspects` (lines 2069-2121). -/
def calculate_enhanced_aspects (cfg : Config)
    (planetList : List Planet) (planets : Planet → PlanetPosition) :
    List AspectInfo :=
  (orderedPairs planetList).filterMap fun pq =>
    pairAspect cfg pq.1 pq.2 (planets pq.1) (planets pq.2)

/-- `_calculate_aspect_positions(planet_longitude, aspect, moon_sign)`
(lines 4252-4274): the longitudes (planet ± aspect) mod 360 that fall
inside the Moon's sign window. -/
def calculate_aspect_positions (planet_longitude : ℚ) (aspect : Aspect)
    (moon_sign : Sign) : List ℚ :=
  let aspect_positions :=
    [pyMod (planet_longitude + aspect.degrees) 360,
     pyMod (planet_longitude - aspect.degrees) 360]
  let sign_start := moon_sign.start_degree
  let sign_end := pyMod (sign_start + 30) 360
  aspect_positions.filter fun pos =>
    let p := pyMod pos 360
    if sign_start < sign_end then
      decide (sign_start ≤ p) && decide (p < sign_end)
    else
      decide (sign_start ≤ p) || decide (p < sign_end)

/-- Result of the void-of-course methods (the `void` and `exception`
flags the judgment reads; the reason strings are not modelled). -/
structure VoidResult where
  void : Bool
  exception : Bool
  deriving DecidableEq, Repr

/-- `_void_by_sign_method` (lines 4123-4200): stationary Moon is never
void; otherwise void iff no aspect target lies strictly ahead of the
Moon inside its current sign; sign exceptions per configuration. -/
def void_by_sign_method (chart : HoraryChart) (cfg : Config) : VoidResult :=
  let moon_pos := chart.planets .moon
  let moon_degree_in_sign := pyMod moon_pos.longitude 30
  let degrees_left_in_sign := 30 - moon_degree_in_sign
  if |moon_pos.speed| < cfg.stationary_speed_threshold then
    { void := false, exception := false }
  else
    let has_future := chart.planetOrder.any fun planet =>
      planet != Planet.moon &&
        aspectOrder.any fun aspect_type =>
          (calculate_aspect_positions (chart.planets planet).longitude
              aspect_type moon_pos.sign).any fun target_position =>
            let target_degree_in_sign := pyMod target_position 30
            decide (target_degree_in_sign > moon_degree_in_sign) &&
              decide (target_degree_in_sign - moon_degree_in_sign <
                degrees_left_in_sign)
    let exceptions :=
      (moon_pos.sign == .cancer && cfg.void_exception_cancer) ||
      (moon_pos.sign == .sagittarius && cfg.void_exception_sagittarius) ||
      (moon_pos.sign == .taurus && cfg.void_exception_taurus)
    { void := !has_future, exception := exceptions }

/-- `_void_by_orb_method` (lines 4201-4230): void iff the Moon is outside
`void_orb_deg` of every Ptolemaic aspect to every other body.  Note:
no stationary-Moon check. -/
def void_by_orb_method (chart : HoraryChart) (cfg : Config) : VoidResult :=
  let moon_pos := chart.planets .moon
  let within := chart.planetOrder.any fun planet =>
    planet != Planet.moon &&
      (let separation := |moon_pos.longitude - (chart.planets planet).longitude|
       let separation := if separation > 180 then 360 - separation else separation
       aspectOrder.any fun aspect_type =>
         |separation - aspect_type.degrees| ≤ cfg.void_orb_deg)
  { void := !within, exception := false }

/-- `_void_lilly_method` (lines 4232-4250): the sign method's void flag,
with the exception flag overwritten by Lilly's four-sign dispensation. -/
def void_lilly_method (chart : HoraryChart) (cfg : Config) : VoidResult :=
  let moon_sign := (chart.planets .moon).sign
  let exception :=
    moon_sign == Sign.cancer || moon_sign == Sign.taurus ||
    moon_sign == Sign.sagittarius || moon_sign == Sign.pisces
  let base := void_by_sign_method chart cfg
  { base with exception := exception }

/-- `_is_moon_void_of_course_enhanced` (lines 4106-4121): dispatch on the
configured method, defaulting to `by_sign` for unknown rules. -/
def is_moon_void_of_course_enhanced (chart : HoraryChart) (cfg : Config) :
    VoidResult :=
  if cfg.void_rule == "by_sign" then void_by_sign_method chart cfg
  else if cfg.void_rule == "by_orb" then void_by_orb_method chart cfg
  else if cfg.void_rule == "lilly" then void_lilly_method chart cfg
  else void_by_sign_method chart cfg

/-- `_is_moon_applying_to_aspect` (lines 1582-1604): Moon-only forward
projection by 0.1 day shrinks the orb. -/
def is_moon_applying_to_aspect (moon_pos planet_pos : PlanetPosition)
    (aspect : Aspect) (moon_speed : ℚ) : Bool :=
  let current_separation := |moon_pos.longitude - planet_pos.longitude|
  let current_separation :=
    if current_separation > 180 then 360 - current_separation
    else current_separation
  let future_moon_lon := pyMod (moon_pos.longitude + moon_speed * (1/10)) 360
  let future_separation := |future_moon_lon - planet_pos.longitude|
  let future_separation :=
    if future_separation > 180 then 360 - future_separation
    else future_separation
  |future_separation - aspect.degrees| < |current_separation - aspect.degrees|

/-- Python `min(applying_aspects, key=lambda x: x.perfection_eta_days)`:
first element with minimal ETA, `float('inf')` comparing above every
finite value. -/
def pickSoonest : List LunarAspect → Option LunarAspect
  | [] => none
  | a :: as_ => some (as_.foldl (fun best x =>
      if !x.eta_inf &&
          (best.eta_inf || x.perfection_eta_days < best.perfection_eta_days)
      then x else best) a)

/-- `_calculate_moon_next_aspect` (lines 1512-1558); `moon_speed` is the
ephemeris value `get_real_moon_speed(jd_ut)`, passed as a parameter.
ETA is `none` when the relative speed vanishes (`float('inf')`), and
such an entry is never produced because `orb/0` guards it. -/
def calculate_moon_next_aspect (cfg : Config)
    (planetList : List Planet) (planets : Planet → PlanetPosition)
    (moon_speed : ℚ) : Option LunarAspect :=
  let moon_pos := planets .moon
  let applying_aspects := planetList.flatMap fun planet =>
    if planet == Planet.moon then []
    else
      let planet_pos := planets planet
      let separation := |moon_pos.longitude - planet_pos.longitude|
      let separation :=
        if separation > 180 then 360 - separation else separation
      aspectOrder.filterMap fun aspect_type =>
        let orb_diff := |separation - aspect_type.degrees|
        if orb_diff ≤ cfg.aspect_orb aspect_type &&
            is_moon_applying_to_aspect moon_pos planet_pos aspect_type
              moon_speed then
          let relative_speed := |moon_speed - abs planet_pos.speed|
          let eta := if relative_speed > 0 then orb_diff / relative_speed else 0
          some { planet := planet
                 aspect := aspect_type
                 orb := orb_diff
                 degrees_difference := orb_diff
                 perfection_eta_days := eta
                 eta_inf := decide (¬ relative_speed > 0)
                 applying := true }
        else none
  pickSoonest applying_aspects

/-- The dict returned by `_find_applying_aspect`
(`{"aspect", "orb", "degrees_to_exact"}`; note: no `applying` key). -/
structure DirectAspect where
  aspect : Aspect
  orb : ℚ
  degrees_to_exact : ℚ
  deriving DecidableEq, Repr

/-- `_find_applying_aspect(chart, planet1, planet2)` (lines 4444-4454):
first applying aspect of the pair in `chart.aspects`. -/
def find_applying_aspect (chart : HoraryChart) (planet1 planet2 : Planet) :
    Option DirectAspect :=
  (chart.aspects.find? fun a =>
      ((a.planet1 == planet1 && a.planet2 == planet2) ||
        (a.planet1 == planet2 && a.planet2 == planet1)) && a.applying).map
    fun a => { aspect := a.aspect, orb := a.orb,
               degrees_to_exact := a.degrees_to_exact }

/-- `_enhanced_perfects_in_sign` (lines 4838-4860); Python truthiness
again skips a sign-exit time of `None` or `0.0`. -/
def enhanced_perfects_in_sign (pos1 pos2 : PlanetPosition)
    (aspect_info : DirectAspect) : Bool :=
  let e1 := days_to_sign_exit pos1.longitude pos1.speed
  let e2 := days_to_sign_exit pos2.longitude pos2.speed
  let rel := |pos1.speed - pos2.speed|
  if rel == 0 then false
  else
    let dtp := aspect_info.degrees_to_exact / rel
    if truthyQ e1 && decide (dtp > e1.getD 0) then false
    else if truthyQ e2 && decide (dtp > e2.getD 0) then false
    else true

/-- `_days_to_aspect_perfection` (lines 4832-4836); `none` is
`float('inf')`. -/
def days_to_aspect_perfection (pos1 pos2 : PlanetPosition)
    (aspect_info : DirectAspect) : Option ℚ :=
  let rel := |pos1.speed - pos2.speed|
  if rel > 0 then some (aspect_info.degrees_to_exact / rel) else none

/-- `_is_aspect_favorable_enhanced` (lines 4985-5024). -/
def is_aspect_favorable_enhanced (aspect : Aspect) (reception : String)
    (chart : HoraryChart) (querent quesited : Planet) : Bool :=
  let base_favorable :=
    aspect == Aspect.conjunction || aspect == Aspect.sextile ||
      aspect == Aspect.trine
  if reception == "mutual_rulership" || reception == "mutual_exaltation" ||
      reception == "mixed_reception" then true
  else
    let querent_pos := chart.planets querent
    let quesited_pos := chart.planets quesited
    let cadent : ℤ → Bool := fun h => h == 3 || h == 6 || h == 9 || h == 12
    let querent_weak := querent_pos.dignity_score < -5
    let quesited_weak := quesited_pos.dignity_score < -5
    let needs_reception :=
      cadent querent_pos.house || cadent quesited_pos.house ||
        querent_weak || quesited_weak
    if needs_reception && reception == "none" then
      if aspect == Aspect.sextile then false
      else if aspect == Aspect.square || aspect == Aspect.opposition then false
      else if aspect == Aspect.conjunction && (querent_weak || quesited_weak)
        then false
      else base_favorable
    else base_favorable

/-- `_get_planet_moiety` (lines 5261-5272): hard-coded moiety table. -/
def get_planet_moiety : Planet → ℚ
  | .sun => 17
  | .moon => 25/2
  | .mercury => 7
  | .venus => 8
  | .mars => 15/2
  | .jupiter => 9
  | .saturn => 19/2

/-- `_is_aspect_within_orb_limits` (lines 5243-5259). -/
def is_aspect_within_orb_limits (aspect : AspectInfo) : Bool :=
  aspect.orb ≤ get_planet_moiety aspect.planet1 + get_planet_moiety aspect.planet2

/-- `_validate_translation_sequence_timing` (lines 5274-5305): the
separating aspect must not be applying, the applying one must be, the
separation at most 10° past exact, the application at most 15° from
exact (`AspectInfo` always has `degrees_to_exact`, so the `hasattr`
guard is true). -/
def validate_translation_sequence_timing
    (separating_aspect applying_aspect : AspectInfo) : Bool :=
  if separating_aspect.applying || !applying_aspect.applying then false
  else if separating_aspect.degrees_to_exact > 10 then false
  else if applying_aspect.degrees_to_exact > 15 then false
  else true

/-- `_check_intervening_aspects` (lines 5214-5241), including the Python
conditional-expression precedence quirk: when the known separating
(resp. applying) aspect has `planet1 ≠ translator`, the skip condition
evaluates to the truthy enum `separating_aspect.planet1`, so the
candidate is always skipped.  Returns whether any applying aspect of the
translator perfects sooner than the applying leg. -/
def check_intervening_aspects (chart : HoraryChart) (translator : Planet)
    (separating_aspect applying_aspect : AspectInfo) : Bool :=
  let translator_aspects := chart.aspects.filter fun aspect =>
    (aspect.planet1 == translator || aspect.planet2 == translator) &&
      (let other :=
        if aspect.planet1 == translator then aspect.planet2 else aspect.planet1
       let skip1 :=
        if separating_aspect.planet1 == translator then
          other == separating_aspect.planet2
        else true
       let skip2 :=
        if applying_aspect.planet1 == translator then
          other == applying_aspect.planet2
        else true
       !skip1 && !skip2)
  translator_aspects.any fun aspect =>
    aspect.applying &&
      decide (aspect.degrees_to_exact < applying_aspect.degrees_to_exact)

/-- The translation result record (the fields the callers read; the
reason/sequence strings and validation metadata are not modelled). -/
structure TranslationResult where
  found : Bool
  translator : Option Planet := none
  favorable : Bool := true
  confidence : ℚ := 0
  combustion_penalty : ℚ := 0
  deriving DecidableEq, Repr

/-- The hard-aspect test of `_check_enhanced_translation_of_light`
(line 3634): `querent_aspect.aspect in ["Square", "Opposition"] or
quesited_aspect.aspect in ["Square", "Opposition"]`, comparing `Aspect`
enum members with strings. -/
def translation_hard_flag (querent_aspect quesited_aspect : AspectInfo) :
    Bool :=
  aspectEqPyStr querent_aspect.aspect "Square" ||
  aspectEqPyStr querent_aspect.aspect "Opposition" ||
  aspectEqPyStr quesited_aspect.aspect "Square" ||
  aspectEqPyStr quesited_aspect.aspect "Opposition"

/-- The body of the translator loop of
`_check_enhanced_translation_of_light` (lines 3527-3671) for one
candidate translator; `none` models `continue`. -/
def translation_step (cfg : Config) (chart : HoraryChart)
    (querent quesited : Planet) (planet : Planet) :
    Option TranslationResult :=
  let querent_pos := chart.planets querent
  let quesited_pos := chart.planets quesited
  if planet == querent || planet == quesited then none
  else
      let pos := chart.planets planet
      let speed_ok :=
        if cfg.require_speed_advantage then
          decide (|pos.speed| > |querent_pos.speed|) &&
            decide (|pos.speed| > |quesited_pos.speed|)
        else true
      if !speed_ok then none
      else
        let pair := chart.aspects.foldl
          (fun (acc : Option AspectInfo × Option AspectInfo) aspect =>
            if !is_aspect_within_orb_limits aspect then acc
            else if (aspect.planet1 == planet && aspect.planet2 == querent) ||
                (aspect.planet1 == querent && aspect.planet2 == planet) then
              (some aspect, acc.2)
            else if (aspect.planet1 == planet && aspect.planet2 == quesited) ||
                (aspect.planet1 == quesited && aspect.planet2 == planet) then
              (acc.1, some aspect)
            else acc)
          (none, none)
        match pair with
        | (some querent_aspect, some quesited_aspect) =>
          let case1 :=
            !querent_aspect.applying && quesited_aspect.applying &&
              validate_translation_sequence_timing querent_aspect quesited_aspect
          let case2 :=
            !quesited_aspect.applying && querent_aspect.applying &&
              validate_translation_sequence_timing quesited_aspect querent_aspect
          let seq : Option (AspectInfo × AspectInfo) :=
            if case1 then some (querent_aspect, quesited_aspect)
            else if case2 then some (quesited_aspect, querent_aspect)
            else none
          match seq with
          | none => none
          | some (separating_aspect, applying_aspect) =>
            if cfg.require_proper_sequence &&
                check_intervening_aspects chart planet separating_aspect
                  applying_aspect then none
            else
              let reception_querent :=
                calculate_comprehensive_reception chart planet querent
              let reception_quesited :=
                calculate_comprehensive_reception chart planet quesited
              let reception_bonus : ℚ :=
                if reception_querent.rtype != "none" ||
                    reception_quesited.rtype != "none" then 10 else 0
              let confidence := 65 + reception_bonus
              let combustion_penalty : ℚ :=
                if hasattrSolarCondition pos then 15 else 0
              let confidence := confidence - combustion_penalty
              let hard := translation_hard_flag querent_aspect quesited_aspect
              let favorable := !hard
              let confidence := if hard then confidence - 5 else confidence
              some { found := true
                     translator := some planet
                     favorable := favorable
                     confidence := min 95 (max 35 confidence)
                     combustion_penalty := combustion_penalty }
        | _ => none

/-- `_check_enhanced_translation_of_light` (lines 3521-3676): the first
translator candidate, in planet order, whose step succeeds.  The
hard-aspect test (line 3634) compares `Aspect` enum members with the
strings `"Square"`/`"Opposition"` (`aspectEqPyStr`, always false), and
the combustion test (line 3627) needs the nonexistent `solar_condition`
attribute (`hasattrSolarCondition`, always false). -/
def check_enhanced_translation_of_light (cfg : Config)
    (chart : HoraryChart) (querent quesited : Planet) : TranslationResult :=
  match chart.planetOrder.findSome?
      (translation_step cfg chart querent quesited) with
  | some r => r
  | none => { found := false }

/-- The collection result record. -/
structure CollectionResult where
  found : Bool
  collector : Option Planet := none
  favorable : Bool := true
  confidence : ℚ := 0
  deriving DecidableEq, Repr

/-- `_check_enhanced_collection_of_light` (lines 4676-4759).  Caveat: the
aspect-quality test at line 4745 evaluates
`aspects_from_querent["aspect"].aspect`, and the `Aspect` enum has no
`aspect` attribute, so reaching that statement actually raises
`AttributeError` in Python; it is modelled here (like the other
enum-vs-string comparisons) as the always-false `aspectEqPyStr`, which
only matters on inputs where a collector passes every earlier
requirement — no chart considered in this development does. -/
def check_enhanced_collection_of_light (chart : HoraryChart)
    (querent quesited : Planet) : CollectionResult :=
  let querent_pos := chart.planets querent
  let quesited_pos := chart.planets quesited
  let step : Planet → Option CollectionResult := fun planet =>
    if planet == querent || planet == quesited then none
    else
      let pos := chart.planets planet
      if !(decide (|pos.speed| < |querent_pos.speed|) &&
          decide (|pos.speed| < |quesited_pos.speed|)) then none
      else
        match find_applying_aspect chart querent planet,
            find_applying_aspect chart quesited planet with
        | some aspects_from_querent, some aspects_from_quesited =>
          if !(check_dignified_reception chart querent planet &&
              check_dignified_reception chart quesited planet) then none
          else
            let querent_days_to_sign :=
              days_to_sign_exit querent_pos.longitude querent_pos.speed
            let quesited_days_to_sign :=
              days_to_sign_exit quesited_pos.longitude quesited_pos.speed
            let querent_collection_days :=
              days_to_aspect_perfection querent_pos pos aspects_from_querent
            let quesited_collection_days :=
              days_to_aspect_perfection quesited_pos pos aspects_from_quesited
            let timing_valid :=
              !(truthyQ querent_days_to_sign &&
                  gtInf querent_collection_days (querent_days_to_sign.getD 0)) &&
              !(truthyQ quesited_days_to_sign &&
                  gtInf quesited_collection_days (quesited_days_to_sign.getD 0))
            if !timing_valid then none
            else
              let collector_strength := pos.dignity_score
              let base_confidence : ℚ := 60 +
                (if collector_strength ≥ 3 then 15
                 else if collector_strength ≥ 0 then 5 else -10)
              let base_confidence :=
                if hasattrSolarCondition pos then base_confidence - 20
                else base_confidence
              let hard :=
                aspectEqPyStr aspects_from_querent.aspect "Square" ||
                aspectEqPyStr aspects_from_querent.aspect "Opposition" ||
                aspectEqPyStr aspects_from_quesited.aspect "Square" ||
                aspectEqPyStr aspects_from_quesited.aspect "Opposition"
              let favorable := !hard
              let base_confidence :=
                if hard then base_confidence - 10 else base_confidence
              some { found := true
                     collector := some planet
                     favorable := favorable
                     confidence := min 90 (max 30 base_confidence) }
        | _, _ => none
  match chart.planetOrder.findSome? step with
  | some r => r
  | none => { found := false }

/-- The perfection result record (the fields the callers read).
`ptype` is the `"type"` key; the no-perfection dict has no such key and
carries `""` here (no caller reads it in that case: the judgment only
reads `perfection["type"]` under `perfection["perfects"]`).  `aspect`
models the presence of the `"aspect"` key. -/
structure PerfectionResult where
  perfects : Bool
  ptype : String := ""
  favorable : Bool := false
  confidence : ℚ := 0
  reception : String := "none"
  aspect : Option DirectAspect := none
  deriving DecidableEq, Repr

/-- The combustion-conjunction reclassification guard of
`_check_enhanced_perfection` (lines 4471-4487): the aspect must be a
conjunction, one significator the Sun, and then the test at line 4486 —
`hasattr(other_pos, 'solar_condition')` on a `PlanetPosition`
(always false) followed by a `SolarCondition`-enum-versus-string
comparison (always false). -/
def combustion_conjunction_guard (chart : HoraryChart)
    (querent quesited : Planet) (direct_aspect : DirectAspect) : Bool :=
  let sun_other : Option Planet :=
    if querent == Planet.sun then some quesited
    else if quesited == Planet.sun then some querent
    else none
  direct_aspect.aspect == Aspect.conjunction &&
    (match sun_other with
     | some other_planet =>
       hasattrSolarCondition (chart.planets other_planet) &&
         solarCondEqPyStr
           (((chart.solar_analyses.lookup other_planet).getD
             { distance_from_sun := 0, condition := .free }).condition)
           "Combustion"
     | none => false)

/-- `_check_enhanced_perfection` (lines 4456-4619). -/
def check_enhanced_perfection (cfg : Config) (chart : HoraryChart)
    (querent quesited : Planet) (exaltation_confidence_boost : ℚ) :
    PerfectionResult :=
  let querent_pos := chart.planets querent
  let quesited_pos := chart.planets quesited
  let reception_fallback : PerfectionResult :=
    let reception := reception_type chart querent quesited
    if reception == "mutual_rulership" then
      { perfects := true, ptype := "reception", favorable := true
        confidence := cfg.reception_only, reception := reception }
    else if reception == "mutual_exaltation" then
      { perfects := true, ptype := "reception", favorable := true
        confidence :=
          ((⌊min 100 (cfg.reception_only + exaltation_confidence_boost)⌋ : ℤ) : ℚ)
        reception := reception }
    else { perfects := false }
  match find_applying_aspect chart querent quesited with
  | some direct_aspect =>
    if combustion_conjunction_guard chart querent quesited direct_aspect then
      { perfects := false, ptype := "combustion_denial", favorable := false
        confidence := 85
        reception := reception_type chart querent quesited
        aspect := some direct_aspect }
    else if enhanced_perfects_in_sign querent_pos quesited_pos direct_aspect
    then
      let reception := reception_type chart querent quesited
      if reception == "mutual_rulership" then
        { perfects := true, ptype := "direct", favorable := true
          confidence := cfg.direct_with_mutual_rulership
          reception := reception, aspect := some direct_aspect }
      else if reception == "mutual_exaltation" then
        { perfects := true, ptype := "direct", favorable := true
          confidence :=
            ((⌊min 100 (cfg.direct_with_mutual_exaltation +
              exaltation_confidence_boost)⌋ : ℤ) : ℚ)
          reception := reception, aspect := some direct_aspect }
      else
        let favorable :=
          is_aspect_favorable_enhanced direct_aspect.aspect reception chart
            querent quesited
        { perfects := favorable
          ptype := if favorable then "direct" else "direct_denied"
          favorable := favorable
          confidence := if favorable then cfg.direct_basic else 75
          reception := reception, aspect := some direct_aspect }
    else reception_fallback
  | none =>
    let translation := check_enhanced_translation_of_light cfg chart querent quesited
    if translation.found then
      { perfects := true, ptype := "translation"
        favorable := translation.favorable
        confidence := cfg.translation_of_light }
    else
      let collection := check_enhanced_collection_of_light chart querent quesited
      if collection.found then
        { perfects := true, ptype := "collection"
          favorable := collection.favorable
          confidence := cfg.collection_of_light }
      else reception_fallback

/-- `TraditionalOverrides.check_moon_translation_clean`
(lines 5666-5694): later matches in the aspect scan overwrite earlier
ones; clean iff the Moon has applying aspects to both significators and
at least neutral dignity. -/
def check_moon_translation_clean (chart : HoraryChart)
    (querent quesited : Planet) : Bool :=
  let moon_pos := chart.planets .moon
  let pair := chart.aspects.foldl
    (fun (acc : Option AspectInfo × Option AspectInfo) aspect =>
      if (aspect.planet1 == Planet.moon && aspect.planet2 == querent) ||
          (aspect.planet2 == Planet.moon && aspect.planet1 == querent) then
        (some aspect, acc.2)
      else if (aspect.planet1 == Planet.moon && aspect.planet2 == quesited) ||
          (aspect.planet2 == Planet.moon && aspect.planet1 == quesited) then
        (acc.1, some aspect)
      else acc)
    (none, none)
  match pair with
  | (some moon_to_querent, some moon_to_quesited) =>
    moon_to_querent.applying && moon_to_quesited.applying &&
      decide (moon_pos.dignity_score ≥ 0)
  | _ => false

/-- The significator-identification result, as an oracle input: the
fields of the `_identify_significators` dict that
`_apply_enhanced_judgment` and `check_void_moon_overrides` read.
`none` models `valid = False`. -/
structure SigInfo where
  querent : Planet
  quesited : Planet
  same_ruler : Option Planet := none
  transaction_type : Bool := false
  item_significator : Option Planet := none
  third_person_education_student : Option Planet := none
  deriving DecidableEq, Repr

/-- `TraditionalOverrides.check_void_moon_overrides` (lines 5643-5663):
invalid significators cannot override; otherwise the clean-translation
check decides. -/
def check_void_moon_overrides (chart : HoraryChart)
    (significators : Option SigInfo) : Bool :=
  match significators with
  | none => false
  | some sig => check_moon_translation_clean chart sig.querent sig.quesited

/-- Result of `_check_moon_next_aspect_to_significators`. -/
structure MoonNextResult where
  decisive : Bool
  result : String := ""
  confidence : ℚ := 0
  void_moon : Bool := false
  deriving DecidableEq, Repr

/-- `_check_moon_next_aspect_to_significators` (lines 4907-4964). -/
def check_moon_next_aspect_to_significators (cfg : Config)
    (chart : HoraryChart) (querent quesited : Planet)
    (ignore_void_moon : Bool) : MoonNextResult :=
  match chart.moon_next_aspect with
  | none => { decisive := false }
  | some next_aspect =>
    if !(next_aspect.planet == querent || next_aspect.planet == quesited) then
      { decisive := false }
    else
      let void_of_course :=
        if !ignore_void_moon then
          let vc := is_moon_void_of_course_enhanced chart cfg
          vc.void && !vc.exception
        else false
      let favorable :=
        next_aspect.aspect == Aspect.conjunction ||
        next_aspect.aspect == Aspect.sextile ||
        next_aspect.aspect == Aspect.trine
      let base_confidence : ℚ := if favorable then 75 else 65
      let base_confidence :=
        if void_of_course then base_confidence - 15 else base_confidence
      let base_confidence :=
        if next_aspect.orb ≤ 1 then base_confidence + 10 else base_confidence
      let decisive := !(void_of_course && !favorable)
      let result := if favorable then "YES" else "NO"
      let reception := reception_type chart .moon next_aspect.planet
      let (result, base_confidence) :=
        if reception != "none" && !favorable then
          ("UNCLEAR", base_confidence + 10)
        else (result, base_confidence)
      { decisive := decisive, result := result
        confidence := base_confidence, void_moon := void_of_course }

/-- The parts of the `_analyze_enhanced_solar_factors` dict
(lines 5026-5080) that `_apply_enhanced_judgment` reads, computed from
`chart.solar_analyses`.  `detailed` maps each analysed planet to its
`condition_name` string and `distance_from_sun`. -/
structure SolarFactors where
  significant : Bool
  cazimi_count : ℕ
  combustion_count : ℕ
  detailed : List (Planet × (String × ℚ))
  deriving DecidableEq, Repr

/-- `_analyze_enhanced_solar_factors` (lines 5026-5080). -/
def analyze_enhanced_solar_factors (chart : HoraryChart)
    (ignore_combustion : Bool) : SolarFactors :=
  let cazimi := chart.solar_analyses.filter fun pa =>
    pa.2.condition == SolarCondition.cazimi
  let combusted := chart.solar_analyses.filter fun pa =>
    pa.2.condition == SolarCondition.combustion && !ignore_combustion
  let under_beams := chart.solar_analyses.filter fun pa =>
    pa.2.condition == SolarCondition.underBeams && !ignore_combustion
  { significant :=
      !cazimi.isEmpty || !combusted.isEmpty || !under_beams.isEmpty
    cazimi_count := cazimi.length
    combustion_count := if ignore_combustion then 0 else combusted.length
    detailed := chart.solar_analyses.map fun pa =>
      (pa.1, (pa.2.condition.condition_name, pa.2.distance_from_sun)) }

/-- Whether `planet.value` occurs among the detailed analyses whose
`condition` string is `"Combustion"` (the significator-combustion test
at lines 2728-2729). -/
def detailedCombusted (sf : SolarFactors) (planet : Planet) : Bool :=
  sf.detailed.any fun pd => pd.1 == planet && pd.2.1 == "Combustion"

/-- `_apply_aspect_direction_adjustment` (lines 3450-3470; the later of
the two definitions of that name wins in Python).  For a direct
perfection the `"aspect"` value is a *dict*, so
`hasattr(aspect_info, 'applying')` is false; for a translation the
perfection dict has no `"translator_analysis"` key, so
`.get(..., {})` is falsy.  Either way the confidence is returned
unchanged; the structure of both dead tests is kept. -/
def apply_aspect_direction_adjustment (confidence : ℚ)
    (perfection : PerfectionResult) : ℚ :=
  if perfection.ptype == "direct" && perfection.aspect.isSome then
    confidence
  else if perfection.ptype == "translation" then
    confidence
  else confidence

/-- `_apply_dignity_confidence_adjustment` (lines 3472-3507). -/
def apply_dignity_confidence_adjustment (confidence : ℚ)
    (chart : HoraryChart) (querent quesited : Planet) : ℚ :=
  let querent_dignity := (chart.planets querent).dignity_score
  let quesited_dignity := (chart.planets quesited).dignity_score
  let confidence :=
    if quesited_dignity ≤ -10 then max (confidence - 35) 10
    else if quesited_dignity < -5 then max (confidence - 20) 25
    else if quesited_dignity ≥ 10 then min (confidence + 15) 95
    else confidence
  if querent_dignity ≤ -10 then max (confidence - 15) 5
  else if querent_dignity ≥ 10 then min (confidence + 10) 95
  else confidence

/-- `_apply_retrograde_quesited_penalty` (lines 3508-3520). -/
def apply_retrograde_quesited_penalty (confidence : ℚ)
    (chart : HoraryChart) (quesited : Planet) : ℚ :=
  if (chart.planets quesited).retrograde then max (confidence - 25) 10
  else confidence

/-- A judgment outcome: the `result` / `confidence` pair of the returned
dict (reasoning strings, timing and the serialized factors are not
modelled — no claim reads them). -/
structure JudgmentOutcome where
  result : String
  confidence : ℚ
  deriving DecidableEq, Repr

/-- Oracle for `_check_transaction_translation` (lines 3677-3743): the
fields of its result that `_apply_enhanced_judgment` reads. -/
structure TransTranslationResult where
  found : Bool := false
  favorable : Bool := true
  confidence : ℚ := 0
  deriving DecidableEq, Repr

/-- Oracle for `_check_enhanced_moon_testimony` (lines 3744-3951): the
fields the same-ruler branch reads (`favorable`, `unfavorable`, and the
per-aspect `favorable` flags of the `aspects` list). -/
structure MoonTestimony where
  favorable : Bool := false
  unfavorable : Bool := false
  aspect_favorables : List Bool := []
  deriving DecidableEq, Repr

/-- The inputs of `_apply_enhanced_judgment` beyond the chart and the
configuration.  `significators`, `transaction_translation`,
`moon_sun_education` and `moon_testimony` stand for the results of the
corresponding helper calls (each is a deterministic function of the
chart and question analysis whose internals no claim touches);
`radicality_valid` is `_check_enhanced_radicality(...)["valid"]`;
`tail` abstracts stages 3.7-7 of the waterfall (Moon-testimony
fallback, denial checks, benefic support, pregnancy exception,
final denial), which receive the running confidence. -/
structure JudgmentInputs where
  ignore_radicality : Bool := false
  ignore_void_moon : Bool := false
  ignore_combustion : Bool := false
  radicality_valid : Bool := true
  significators : Option SigInfo
  question_type : String := "general"
  exaltation_confidence_boost : ℚ := 15
  transaction_translation : TransTranslationResult := {}
  moon_sun_education : PerfectionResult := { perfects := false }
  moon_testimony : MoonTestimony := {}
  tail : ℚ → JudgmentOutcome

/-- The solar-condition review of the significators
(step 5 of §4.10, lines 2717-2781): cazimi bonus, or combustion
penalties in scaled distance bands with a hard denial at two or more
severe impediments. -/
def solar_review (cfg : Config) (chart : HoraryChart)
    (sf : SolarFactors) (ignore_combustion : Bool)
    (querent_planet quesited_planet : Planet) (confidence : ℚ) :
    Except JudgmentOutcome ℚ :=
  if !sf.significant then .ok confidence
  else if sf.cazimi_count > 0 then .ok (confidence + cfg.cazimi_bonus)
  else if sf.combustion_count > 0 && !ignore_combustion then
    let querent_combusted := detailedCombusted sf querent_planet
    let quesited_combusted := detailedCombusted sf quesited_planet
    if querent_combusted || quesited_combusted then
      let contrib : Planet → ℕ × ℚ := fun planet =>
        if detailedCombusted sf planet then
          let distance :=
            ((sf.detailed.lookup planet).getD ("", 0)).2
          let planet_dignity := (chart.planets planet).dignity_score
          let (sev, pen) : ℕ × ℚ :=
            if distance < 1 then (1, 40)
            else if distance < 2 then (0, 25)
            else if distance < 5 then (0, 15)
            else (0, 10)
          let sev :=
            if planet_dignity ≤ -4 && distance < 3 then sev + 1 else sev
          (sev, pen)
        else (0, 0)
      let c1 := contrib querent_planet
      let c2 := contrib quesited_planet
      let severe_impediments := c1.1 + c2.1
      let combustion_penalty := c1.2 + c2.2
      if severe_impediments ≥ 2 then
        .error { result := "NO", confidence := 90 }
      else .ok (confidence - min combustion_penalty 50)
    else .ok confidence
  else .ok confidence

/-- The traditional same-ruler branch (step 3.5 of the waterfall,
lines 2882-3028).  Note: the combustion prohibition at lines 2905-2910
filters the serialized analyses with
`analysis["planet"] == shared_planet`, comparing the planet's *name
string* with the `Planet` enum member — never equal — so that
prohibition can never be added. -/
def same_ruler_branch (chart : HoraryChart) (inp : JudgmentInputs)
    (shared_planet : Planet) (querent_planet quesited_planet : Planet) :
    JudgmentOutcome :=
  let shared_position := chart.planets shared_planet
  let prohibition1 := shared_position.dignity_score ≤ -10
  let prohibition2 := false
  let prohibition3 :=
    shared_position.retrograde && shared_position.dignity_score < -5
  let any_prohibition := prohibition1 || prohibition2 || prohibition3
  let result := if any_prohibition then "NO" else "YES"
  let base_confidence : ℚ := if any_prohibition then 80 else 75
  let mt := inp.moon_testimony
  let reception := reception_type chart querent_planet quesited_planet
  let has_reception := reception != "none"
  let favorable_aspects := mt.aspect_favorables.filter (· == true)
  let unfavorable_aspects := mt.aspect_favorables.filter (· == false)
  let positive_count :=
    1 + (if has_reception then 1 else 0) + favorable_aspects.length
  let negative_count := unfavorable_aspects.length
  let base_confidence :=
    if positive_count > 0 && negative_count > 0 then
      max 65 (base_confidence - min 15 (5 * (negative_count : ℚ)))
    else if mt.favorable then min 85 (base_confidence + 5)
    else if mt.unfavorable then max 70 (base_confidence - 5)
    else base_confidence
  let base_confidence :=
    if has_reception then min 90 (base_confidence + 3) else base_confidence
  let moon_house_roles :=
    (chart.house_rulers.filter fun hr => hr.2 == Planet.moon).map Prod.fst
  let relevant_moon_roles := moon_house_roles.filter fun h =>
    h == 1 || h == 2 || h == 7 || h == 8 || h == 10 || h == 11
  let base_confidence :=
    if !relevant_moon_roles.isEmpty then
      if (chart.planets .moon).dignity_score ≥ 0 then
        min 88 (base_confidence + 3)
      else if (chart.planets .moon).dignity_score < -5 then
        max 65 (base_confidence - 5)
      else base_confidence
    else base_confidence
  { result := result, confidence := base_confidence }

/-- Stages 2-3.6 of `_apply_enhanced_judgment` (everything after the
void-Moon gate), taking the running confidence left by that gate. -/
def judgment_after_void (cfg : Config) (chart : HoraryChart)
    (inp : JudgmentInputs) (confidence : ℚ) : JudgmentOutcome :=
  match inp.significators with
  | none => { result := "CANNOT JUDGE", confidence := 0 }
  | some sig =>
    let querent_planet := sig.querent
    let quesited_planet := sig.quesited
    let confidence :=
      match sig.same_ruler with
      | some shared_planet =>
        let d := (chart.planets shared_planet).dignity_score
        let same_ruler_bonus : ℚ :=
          10 + (if d > 0 then 5 else if d < -10 then -10 else 0)
        confidence + same_ruler_bonus
      | none => confidence
    let sf := analyze_enhanced_solar_factors chart inp.ignore_combustion
    match solar_review cfg chart sf inp.ignore_combustion querent_planet
        quesited_planet confidence with
    | .error out => out
    | .ok confidence =>
      let transaction_out : Option JudgmentOutcome :=
        if sig.transaction_type && sig.item_significator.isSome &&
            inp.transaction_translation.found then
          some { result :=
                   if inp.transaction_translation.favorable then "YES"
                   else "NO"
                 confidence :=
                   min confidence inp.transaction_translation.confidence }
        else none
      match transaction_out with
      | some out => out
      | none =>
        let primary_significator :=
          (sig.third_person_education_student).getD querent_planet
        let secondary_significator := quesited_planet
        let perfection := check_enhanced_perfection cfg chart
          primary_significator secondary_significator
          inp.exaltation_confidence_boost
        let perfection :=
          if !perfection.perfects && inp.question_type == "education" &&
              inp.moon_sun_education.perfects then inp.moon_sun_education
          else perfection
        if perfection.perfects then
          let result := if perfection.favorable then "YES" else "NO"
          let confidence := min confidence perfection.confidence
          let confidence := apply_aspect_direction_adjustment confidence perfection
          let confidence := apply_dignity_confidence_adjustment confidence
            chart querent_planet quesited_planet
          let confidence := apply_retrograde_quesited_penalty confidence
            chart quesited_planet
          let rc := apply_confidence_threshold result confidence
          { result := rc.1, confidence := rc.2 }
        else
          match sig.same_ruler with
          | some shared_planet =>
            same_ruler_branch chart inp shared_planet querent_planet
              quesited_planet
          | none =>
            let moon_next := check_moon_next_aspect_to_significators cfg chart
              querent_planet quesited_planet inp.ignore_void_moon
            if moon_next.decisive then
              { result := moon_next.result, confidence := moon_next.confidence }
            else inp.tail confidence

/-- `_apply_enhanced_judgment` (lines 2632-3220): radicality gate, then
the void-of-course Moon gate (hard NO at confidence 85 unless the
clean-translation override holds, which instead caps the *running*
confidence at 30), then stages 2-3.6 and the abstracted tail. -/
def apply_enhanced_judgment (cfg : Config) (chart : HoraryChart)
    (inp : JudgmentInputs) : JudgmentOutcome :=
  if !inp.ignore_radicality && !inp.radicality_valid then
    { result := "NOT RADICAL", confidence := 0 }
  else
    let confidence := cfg.base_confidence
    if !inp.ignore_void_moon then
      let void_check := is_moon_void_of_course_enhanced chart cfg
      if void_check.void && !void_check.exception then
        if check_void_moon_overrides chart inp.significators then
          judgment_after_void cfg chart inp (min confidence 30)
        else { result := "NO", confidence := 85 }
      else judgment_after_void cfg chart inp confidence
    else judgment_after_void cfg chart inp confidence

/-- ASCII lower-casing of one character (the questions reaching these
analyzers were lower-cased by `analyze_question`, and all patterns are
ASCII). -/
def lowerChar (c : Char) : Char :=
  if 'A' ≤ c && c ≤ 'Z' then Char.ofNat (c.toNat + 32) else c

/-- Does `pat` match at the head of `text` (exact characters)? -/
def subMatchesAt : List Char → List Char → Bool
  | [], _ => true
  | _ :: _, [] => false
  | p :: ps, t :: ts => p == t && subMatchesAt ps ts

/-- Python `pattern in question` for literal strings. -/
def containsSub (pat : List Char) : List Char → Bool
  | [] => subMatchesAt pat []
  | t :: ts => subMatchesAt pat (t :: ts) || containsSub pat ts

/-- Does the lowercase literal `pat` match at the head of `text`, up to
ASCII case (`re.search(..., re.IGNORECASE)` with a literal pattern)? -/
def litMatchesAt : List Char → List Char → Bool
  | [], _ => true
  | _ :: _, [] => false
  | p :: ps, t :: ts => p == lowerChar t && litMatchesAt ps ts

/-- Case-insensitive substring search for a lowercase literal pattern. -/
def containsLit (pat : List Char) : List Char → Bool
  | [] => litMatchesAt pat []
  | t :: ts => litMatchesAt pat (t :: ts) || containsLit pat ts

/-- Regex `\d`. -/
def isDigitChar (c : Char) : Bool := '0' ≤ c && c ≤ '9'

/-- Regex `\w` (ASCII fragment). -/
def isWordChar (c : Char) : Bool := c.isAlpha || isDigitChar c || c == '_'

/-- Does `\w+ \d+` match at the head of the text?  (`\w` cannot match a
space, so the `\w+` run necessarily ends at the first space, which must
be followed by a digit.) -/
def wordSpaceDigit : List Char → Bool
  | [] => false
  | c :: rest =>
    isWordChar c &&
      (match rest with
       | ' ' :: e :: _ => isDigitChar e
       | _ => wordSpaceDigit rest)

/-- `re.search` for a pattern of the shape `marker(\w+ \d+)` (the
`by (\w+ \d+)` / `before (\w+ \d+)` timeframe patterns): some position
matches the literal marker (case-insensitively) followed by
`\w+ \d+`. -/
def markerGroupMatches (marker : List Char) : List Char → Bool
  | [] => false
  | t :: ts =>
    (litMatchesAt marker (t :: ts) &&
      wordSpaceDigit ((t :: ts).drop marker.length)) ||
      markerGroupMatches marker ts

/-- One timeframe regex: either a literal, or `marker(\w+ \d+)`. -/
inductive TfPattern where
  | lit (s : String)
  | groupAfter (marker : String)
  deriving DecidableEq, Repr

/-- Evaluate one timeframe pattern against the (lower-cased) question. -/
def tfPatternMatches (q : List Char) : TfPattern → Bool
  | .lit s => containsLit s.toList q
  | .groupAfter m => markerGroupMatches m.toList q

/-- The `timeframe_patterns` dict of `_parse_question_timeframe`
(lines 567-576), in insertion order.  Note the closed key set: there is
no `specific_month` entry and no month-name pattern. -/
def timeframe_patterns : List (String × List TfPattern) :=
  [("this_month",
     [.lit "this month", .lit "by the end of this month",
      .lit "within this month"]),
   ("next_month", [.lit "next month", .lit "by next month"]),
   ("this_year",
     [.lit "this year", .lit "by the end of this year",
      .lit "within this year"]),
   ("this_week",
     [.lit "this week", .lit "by the end of this week",
      .lit "within this week"]),
   ("today", [.lit "today", .lit "by today", .lit "by the end of today"]),
   ("soon", [.lit "soon", .lit "quickly", .lit "fast"]),
   ("by_date", [.groupAfter "by ", .groupAfter "before "])]

/-- Result of `_parse_question_timeframe` (the end-date arithmetic, pure
`datetime` bookkeeping for `this_month`/`this_week`/`today` only, is not
modelled; `ttype` is the `"type"` field). -/
structure TimeframeResult where
  has_timeframe : Bool
  ttype : Option String
  deriving DecidableEq, Repr

/-- `_parse_question_timeframe` (lines 562-610): the first dict key any
of whose patterns fires. -/
def parse_question_timeframe (question : String) : TimeframeResult :=
  let q := question.toList
  let detected := (timeframe_patterns.filter fun kp =>
    kp.2.any (tfPatternMatches q)).map Prod.fst
  if detected.isEmpty then { has_timeframe := false, ttype := none }
  else { has_timeframe := true, ttype := detected.head? }

/-- The `third_person_patterns` list of `_detect_third_person_question`
(lines 655-667), verbatim. -/
def third_person_patterns : List String :=
  ["will he ", "will she ", "will they ", "did he ", "did she ",
   "has he ", "has she ", "does he ", "does she ", "can he ", "can she ",
   "should he ", "should she ",
   " his ", " her ", " their ",
   "the student", "my student", "the teacher", "my friend", "my partner",
   "my husband", "my wife", "my child", "my son", "my daughter",
   "the patient", "my client",
   "asked by his", "asked by her", "asked by the"]

/-- Result of `_detect_third_person_question` (the fields the claims
read). -/
structure ThirdPersonResult where
  is_third_person : Bool
  subject_house : Option ℤ := none
  deriving DecidableEq, Repr

/-- `_detect_third_person_question` (lines 651-688); the argument is the
lower-cased question. -/
def detect_third_person_question (question : String) : ThirdPersonResult :=
  let q := question.toList
  if third_person_patterns.any fun p => containsSub p.toList q then
    { is_third_person := true, subject_house := some 7 }
  else if ["asked by his teacher", "asked by her teacher",
      "asked by the teacher"].any fun p => containsSub p.toList q then
    { is_third_person := true, subject_house := some 7 }
  else { is_third_person := false }

/-! ## Concrete charts used as witnesses and counterexamples -/

/-- The ephemeris insertion order of the planets dict. -/
def stdOrder : List Planet :=
  [.sun, .moon, .mercury, .venus, .mars, .jupiter, .saturn]

/-- Equal thirty-degree house cusps (cusp `i` at `30 i`). -/
def stdHouses : Fin 12 → ℚ := fun i => 30 * (i : ℚ)

/-- House rulers matching `stdHouses` (cusp sign rulers). -/
def stdRulers : List (ℤ × Planet) :=
  [(1, .mars), (2, .venus), (3, .mercury), (4, .moon), (5, .sun),
   (6, .mercury), (7, .venus), (8, .mars), (9, .jupiter), (10, .saturn),
   (11, .saturn), (12, .jupiter)]

/-- The source's own planetary moieties (also the hard-coded table of
`_get_planet_moiety`), used as the configured moiety table. -/
def stdMoieties : Planet → ℚ := get_planet_moiety

/-- Legacy per-aspect orbs used by the lunar-aspect scan. -/
def stdAspectOrb : Aspect → ℚ
  | .conjunction => 8
  | .sextile => 6
  | .square => 7
  | .trine => 8
  | .opposition => 10

/-- Configuration used by the concrete charts. -/
def stdCfg : Config :=
  { moieties := some stdMoieties
    aspect_orb := stdAspectOrb }

/-- Chart for C1: Moon at 25° Aries (speed 13°/day) is void by sign —
every aspect target inside Aries lies behind it — yet the engine's
aspect list contains applying Moon-Venus (trine) and Moon-Mars (square)
aspects, because retrograde Venus and Mars carry their targets back
across the Aries boundary exactly as the Moon reaches it (perfection
time equals both sign-exit times, and the strict `>` test passes). -/
def c1Planets : Planet → PlanetPosition
  | .sun =>
    { longitude := 190, house := 7, sign := .libra, dignity_score := 0
      speed := 1 }
  | .moon =>
    { longitude := 25, house := 1, sign := .aries, dignity_score := 2
      speed := 13 }
  | .mercury =>
    { longitude := 210, house := 8, sign := .scorpio, dignity_score := 0
      speed := 6/5 }
  | .venus =>
    { longitude := 150 + 5/26, house := 6, sign := .virgo
      dignity_score := 0, retrograde := true, speed := -1/2 }
  | .mars =>
    { longitude := 120 + 5/13, house := 5, sign := .leo, dignity_score := 0
      retrograde := true, speed := -1 }
  | .jupiter =>
    { longitude := 250, house := 9, sign := .sagittarius, dignity_score := 0
      speed := 2/25 }
  | .saturn =>
    { longitude := 310, house := 11, sign := .aquarius, dignity_score := 0
      speed := 1/20 }

/-- Solar analyses for `c1Planets`: every body is free of the Sun (the
nearest, Mercury, is 20° away). -/
def c1Solar : List (Planet × SolarAnalysis) :=
  [(.sun, { distance_from_sun := 0, condition := .free }),
   (.moon, { distance_from_sun := 165, condition := .free }),
   (.mercury, { distance_from_sun := 20, condition := .free }),
   (.venus, { distance_from_sun := 39 + 21/26, condition := .free }),
   (.mars, { distance_from_sun := 69 + 8/13, condition := .free }),
   (.jupiter, { distance_from_sun := 60, condition := .free }),
   (.saturn, { distance_from_sun := 120, condition := .free })]

/-- The C1 chart, with its aspect list and Moon's next applying aspect
computed by the embedded engine itself (Moon ephemeris speed 13). -/
def c1Chart : HoraryChart :=
  { planetOrder := stdOrder
    planets := c1Planets
    aspects := calculate_enhanced_aspects stdCfg stdOrder c1Planets
    houses := stdHouses
    house_rulers := stdRulers
    solar_analyses := c1Solar
    moon_next_aspect := calculate_moon_next_aspect stdCfg stdOrder c1Planets 13 }

/-- Judgment inputs for the C1 chart: a marriage question with valid
significators Venus (L1) and Mars (L7), no same-ruler unity, no
transaction, all overrides off. -/
def c1Inp : JudgmentInputs :=
  { significators := some { querent := .venus, quesited := .mars }
    question_type := "marriage"
    tail := fun c => { result := "TAIL", confidence := c } }

/-- Chart for C2 (the spec's seed scenario 6): the querent is the Sun
itself, the quesited Mercury only 0.5° away — squarely combust — with a
direct applying Sun-Mercury conjunction. -/
def c2Planets : Planet → PlanetPosition
  | .sun =>
    { longitude := 10, house := 1, sign := .aries, dignity_score := 0
      speed := 1 }
  | .moon =>
    { longitude := 45, house := 2, sign := .taurus, dignity_score := 0
      speed := 13 }
  | .mercury =>
    { longitude := 19/2, house := 1, sign := .aries, dignity_score := 0
      speed := 2 }
  | .venus =>
    { longitude := 200, house := 7, sign := .libra, dignity_score := 0
      speed := 1 }
  | .mars =>
    { longitude := 75, house := 3, sign := .gemini, dignity_score := 0
      speed := 1/2 }
  | .jupiter =>
    { longitude := 255, house := 9, sign := .sagittarius, dignity_score := 0
      speed := 2/25 }
  | .saturn =>
    { longitude := 290, house := 10, sign := .capricorn, dignity_score := 0
      speed := 1/20 }

/-- Solar analyses for `c2Planets`: Mercury is combust at 0.5° from the
Sun (well inside any traditional combustion orb); the rest are free. -/
def c2Solar : List (Planet × SolarAnalysis) :=
  [(.sun, { distance_from_sun := 0, condition := .free }),
   (.moon, { distance_from_sun := 35, condition := .free }),
   (.mercury, { distance_from_sun := 1/2, condition := .combustion }),
   (.venus, { distance_from_sun := 170, condition := .free }),
   (.mars, { distance_from_sun := 65, condition := .free }),
   (.jupiter, { distance_from_sun := 115, condition := .free }),
   (.saturn, { distance_from_sun := 80, condition := .free })]

/-- The C2 chart. -/
def c2Chart : HoraryChart :=
  { planetOrder := stdOrder
    planets := c2Planets
    aspects := calculate_enhanced_aspects stdCfg stdOrder c2Planets
    houses := stdHouses
    house_rulers := stdRulers
    solar_analyses := c2Solar
    moon_next_aspect := calculate_moon_next_aspect stdCfg stdOrder c2Planets 13 }

/-- Chart for C6: the Moon (13°/day) has just separated from a square
to Venus (L1, 3° past exact) and applies by square to Mars (L7, 4° from
exact) — a textbook translation of light by *hard* aspects. -/
def c6Planets : Planet → PlanetPosition
  | .sun =>
    { longitude := 150, house := 6, sign := .virgo, dignity_score := 0
      speed := 1 }
  | .moon =>
    { longitude := 125, house := 5, sign := .leo, dignity_score := 1
      speed := 13 }
  | .mercury =>
    { longitude := 262, house := 9, sign := .sagittarius, dignity_score := 0
      speed := 2 }
  | .venus =>
    { longitude := 212, house := 8, sign := .scorpio, dignity_score := 0
      speed := 1/2 }
  | .mars =>
    { longitude := 219, house := 8, sign := .scorpio, dignity_score := 0
      speed := 6/5 }
  | .jupiter =>
    { longitude := 265, house := 9, sign := .sagittarius, dignity_score := 0
      speed := 2/25 }
  | .saturn =>
    { longitude := 95, house := 4, sign := .cancer, dignity_score := 0
      speed := 1/20 }

/-- Solar analyses for `c6Planets`: everything free of the Sun. -/
def c6Solar : List (Planet × SolarAnalysis) :=
  [(.sun, { distance_from_sun := 0, condition := .free }),
   (.moon, { distance_from_sun := 25, condition := .free }),
   (.mercury, { distance_from_sun := 112, condition := .free }),
   (.venus, { distance_from_sun := 62, condition := .free }),
   (.mars, { distance_from_sun := 69, condition := .free }),
   (.jupiter, { distance_from_sun := 115, condition := .free }),
   (.saturn, { distance_from_sun := 55, condition := .free })]

/-- The C6 chart. -/
def c6Chart : HoraryChart :=
  { planetOrder := stdOrder
    planets := c6Planets
    aspects := calculate_enhanced_aspects stdCfg stdOrder c6Planets
    houses := stdHouses
    house_rulers := stdRulers
    solar_analyses := c6Solar
    moon_next_aspect := calculate_moon_next_aspect stdCfg stdOrder c6Planets 13 }

/-- Configuration for C7 with generous (but per-planet uniform) moieties
of 15°, under which a separation of 80° lies within both the sextile orb
(21°) and the square orb (25.5°). -/
def c7Cfg : Config :=
  { moieties := some fun _ => 15
    aspect_orb := stdAspectOrb }

/-- Positions for C7: Venus at 0° and Mars at 80°. -/
def c7Planets : Planet → PlanetPosition
  | .venus =>
    { longitude := 0, house := 1, sign := .aries, dignity_score := 0
      speed := 1 }
  | .mars =>
    { longitude := 80, house := 3, sign := .gemini, dignity_score := 0
      speed := 1/2 }
  | _ =>
    { longitude := 0, house := 1, sign := .aries, dignity_score := 0
      speed := 0 }

/-- C8 counterexample positions: a retrograde body *exactly on its sign
cusp* (longitude 30°, i.e. 0° Taurus moving back into Aries — its
directional time to sign exit is zero) square a direct body at 115°. -/
def c8Pos1 : PlanetPosition :=
  { longitude := 30, house := 2, sign := .taurus, dignity_score := 0
    retrograde := true, speed := -1 }

/-- The direct partner of the C8 counterexample. -/
def c8Pos2 : PlanetPosition :=
  { longitude := 115, house := 4, sign := .cancer, dignity_score := 0
    speed := 1/2 }

/-- Chart for C9: a stationary Moon (speed 0) at 0° Aries with every
other body 35°-40° away — outside the 5° void orb of every Ptolemaic
aspect. -/
def c9Planets : Planet → PlanetPosition
  | .sun =>
    { longitude := 35, house := 2, sign := .taurus, dignity_score := 0
      speed := 1 }
  | .moon =>
    { longitude := 0, house := 1, sign := .aries, dignity_score := 0
      speed := 0 }
  | .mercury =>
    { longitude := 36, house := 2, sign := .taurus, dignity_score := 0
      speed := 1 }
  | .venus =>
    { longitude := 37, house := 2, sign := .taurus, dignity_score := 0
      speed := 1 }
  | .mars =>
    { longitude := 38, house := 2, sign := .taurus, dignity_score := 0
      speed := 1 }
  | .jupiter =>
    { longitude := 39, house := 2, sign := .taurus, dignity_score := 0
      speed := 1 }
  | .saturn =>
    { longitude := 40, house := 2, sign := .taurus, dignity_score := 0
      speed := 1 }

/-- Solar analyses for `c9Planets` (nothing combust). -/
def c9Solar : List (Planet × SolarAnalysis) :=
  [(.sun, { distance_from_sun := 0, condition := .free }),
   (.moon, { distance_from_sun := 35, condition := .free }),
   (.mercury, { distance_from_sun := 1, condition := .free }),
   (.venus, { distance_from_sun := 2, condition := .free }),
   (.mars, { distance_from_sun := 3, condition := .free }),
   (.jupiter, { distance_from_sun := 4, condition := .free }),
   (.saturn, { distance_from_sun := 5, condition := .free })]

/-- The C9 chart. -/
def c9Chart : HoraryChart :=
  { planetOrder := stdOrder
    planets := c9Planets
    aspects := calculate_enhanced_aspects stdCfg stdOrder c9Planets
    houses := stdHouses
    house_rulers := stdRulers
    solar_analyses := c9Solar
    moon_next_aspect := calculate_moon_next_aspect stdCfg stdOrder c9Planets 0 }

/-- The `by_orb` void-of-course configuration for C9. -/
def c9OrbCfg : Config := { stdCfg with void_rule := "by_orb" }

/-- C1 judgment inputs with invalid significators (used to witness the
hard void-Moon denial: no significators means no override). -/
def c1NoSigInp : JudgmentInputs :=
  { significators := none
    tail := fun c => { result := "TAIL", confidence := c } }

/-- A well-behaved applying pair (no sign-boundary degeneracy): a
retrograde body at 10° Aries closing a square to a body at 5° Cancer. -/
def w8Pos1 : PlanetPosition :=
  { longitude := 10, house := 1, sign := .aries, dignity_score := 0
    retrograde := true, speed := -2 }

/-- The direct partner of `w8Pos1`. -/
def w8Pos2 : PlanetPosition :=
  { longitude := 95, house := 4, sign := .cancer, dignity_score := 0
    speed := 1/2 }

/-- Does an emitted aspect belong to the unordered pair `{p, q}`? -/
def matchesPair (a : AspectInfo) (p q : Planet) : Bool :=
  (a.planet1 == p && a.planet2 == q) || (a.planet1 == q && a.planet2 == p)

/-- How many aspects of a list belong to the unordered pair `{p, q}`. -/
def countPairAspects (l : List AspectInfo) (p q : Planet) : ℕ :=
  l.countP (matchesPair · p q)

/-! ## Theorems -/

/-- C10 (counterexample): for Cancer in a day chart the Reception
Calculator's triplicity ruler is Mars while the dignity scorer's is
Venus, so the two triplicity tables differ. -/
theorem C10_water_triplicity_counterexample :
    receptionTriplicityRuler Sign.cancer true = Planet.mars ∧
    dignityTriplicityRuler Sign.cancer true = Planet.venus ∧
    (Planet.mars == Planet.venus) = false := by
  decide

/-- C10 (amended): the Reception Calculator's and the dignity scorer's
triplicity tables agree on the fire, earth and air signs, but on the
water signs (Cancer, Scorpio, Pisces) the day and night rulers are
swapped between the two components. -/
theorem C10_triplicity_tables_agree_except_water (s : Sign) (d : Bool) :
    receptionTriplicityRuler s d =
      dignityTriplicityRuler s
        (if s = Sign.cancer ∨ s = Sign.scorpio ∨ s = Sign.pisces then !d
         else d) := by
  revert s d; decide

/-- C4 (code_bug): the third-person detector misses plain
`is she/he/they ...` questions — for the repository's own test inputs
"is she pregnant?", "is he lying?" and "is they happy?" (already
lower-cased by `analyze_question`) it reports `is_third_person = False`
and assigns no subject house, although
`tests/test_is_she_pregnant.py` asserts `is_third_person is True`. -/
theorem C4_pronoun_detection_fails_on_tests :
    detect_third_person_question "is she pregnant?" =
      { is_third_person := false, subject_house := none } ∧
    detect_third_person_question "is he lying?" =
      { is_third_person := false, subject_house := none } ∧
    detect_third_person_question "is they happy?" =
      { is_third_person := false, subject_house := none } := by
  decide

/-- C3 (code_bug): the timeframe parser knows no `specific_month` type —
its pattern dictionary has only the seven keys `this_month, next_month,
this_year, this_week, today, soon, by_date` — and on the repository's
own test question "Will I get a job in September?" (lower-cased by
`analyze_question`) it finds no timeframe at all, although
`tests/test_month_timeframe.py` asserts `type == "specific_month"` with
end date 2024-09-30. -/
theorem C3_no_specific_month_timeframe :
    parse_question_timeframe "will i get a job in september?" =
      { has_timeframe := false, ttype := none } ∧
    ∀ q : String,
      ((parse_question_timeframe q).ttype == some "specific_month") = false := by
  refine ⟨by decide, ?_⟩
  intro q
  rw [beq_eq_false_iff_ne]
  unfold parse_question_timeframe
  dsimp only
  split
  · simp
  · simp only [List.head?_map]
    cases hf : (List.filter (fun kp => kp.2.any (tfPatternMatches q.toList))
        timeframe_patterns).head? with
    | none => simp
    | some kp =>
      have hmem : kp ∈ timeframe_patterns :=
        List.mem_of_mem_filter
          (List.mem_of_mem_head? (Option.mem_def.mpr hf))
      have hne : kp.1 ≠ "specific_month" := by
        simp [timeframe_patterns] at hmem
        rcases hmem with h|h|h|h|h|h|h <;> simp [h]
      simp [hne]

/-- C5 (confirmed): the confidence threshold turns a YES below 30 into
NO at `max(confidence, 20)`, a YES in `[30, 50)` into INCONCLUSIVE with
unchanged confidence, and returns every other pair unchanged. -/
theorem C5_confidence_threshold (result : String) (confidence : ℚ) :
    (result = "YES" → confidence < 30 →
      apply_confidence_threshold result confidence =
        ("NO", max confidence 20)) ∧
    (result = "YES" → 30 ≤ confidence → confidence < 50 →
      apply_confidence_threshold result confidence =
        ("INCONCLUSIVE", confidence)) ∧
    (¬(result = "YES" ∧ confidence < 50) →
      apply_confidence_threshold result confidence = (result, confidence)) := by
  unfold apply_confidence_threshold
  refine ⟨?_, ?_, ?_⟩
  · intro hr hc
    have h50 : confidence < 50 := lt_trans hc (by norm_num)
    simp [hr, hc, h50]
  · intro hr h30 h50
    simp [hr, h50, not_lt.mpr h30]
  · intro h
    by_cases h50 : confidence < 50
    · have hr : result ≠ "YES" := fun hr => h ⟨hr, h50⟩
      simp [h50, hr]
    · simp [h50]

/-- C5 witness: the threshold evaluated at YES/25, YES/40 and NO/10. -/
theorem C5_confidence_threshold_witness :
    apply_confidence_threshold "YES" 25 = ("NO", max 25 20) ∧
    apply_confidence_threshold "YES" 40 = ("INCONCLUSIVE", 40) ∧
    apply_confidence_threshold "NO" 10 = ("NO", 10) :=
  ⟨(C5_confidence_threshold "YES" 25).1 rfl (by norm_num),
   (C5_confidence_threshold "YES" 40).2.1 rfl (by norm_num) (by norm_num),
   (C5_confidence_threshold "NO" 10).2.2 (by simp)⟩

/-- C9 (amended): under the `by_sign` and `lilly` void-of-course methods
(and the `by_sign` fallback for unknown method names) a Moon below the
stationary speed threshold is never reported void; the `by_orb` method
is excluded because it performs no stationary check. -/
theorem C9_stationary_moon_not_void (chart : HoraryChart) (cfg : Config)
    (hspeed : |(chart.planets .moon).speed| < cfg.stationary_speed_threshold)
    (hrule : cfg.void_rule ≠ "by_orb") :
    (is_moon_void_of_course_enhanced chart cfg).void = false := by
  have hsign : (void_by_sign_method chart cfg).void = false := by
    unfold void_by_sign_method
    dsimp only
    rw [if_pos hspeed]
  unfold is_moon_void_of_course_enhanced
  split_ifs with h1 h2 h3
  · exact hsign
  · exact absurd (by simpa using h2) hrule
  · unfold void_lilly_method
    dsimp only
    exact hsign
  · exact hsign

/-- C9 witness: the amended theorem applied to the stationary-Moon chart
under the default `by_sign` method. -/
theorem C9_stationary_moon_not_void_witness :
    (is_moon_void_of_course_enhanced c9Chart stdCfg).void = false :=
  C9_stationary_moon_not_void c9Chart stdCfg
    (by with_unfolding_all decide) (by decide)

/-- C9 counterexample: under the `by_orb` method the very same
stationary Moon (speed 0, below the 0.1°/day threshold, outside the 5°
void orb of every aspect) *is* reported void. -/
theorem C9_by_orb_stationary_void_counterexample :
    |(c9Chart.planets .moon).speed| < c9OrbCfg.stationary_speed_threshold ∧
    is_moon_void_of_course_enhanced c9Chart c9OrbCfg =
      { void := true, exception := false } := by
  with_unfolding_all decide

/-- C8 (amended): every aspect the engine marks applying has a strictly
shrinking orb under forward projection, and perfects no later than
either body's directional sign exit *whenever that exit time is defined
and nonzero* — the Python truthiness test `if faster_days_to_exit and
...` skips the check both for `None` and for an exit time of exactly
zero. -/
theorem C8_applying_invariant (cfg : Config) (pos1 pos2 : PlanetPosition)
    (a : Aspect) (h : is_applying_enhanced cfg pos1 pos2 a = true) :
    applyingFutureOrb cfg pos1 pos2 a < applyingCurrentOrb pos1 pos2 a ∧
    (∀ d : ℚ, days_to_sign_exit (applyingFaster pos1 pos2).longitude
        (applyingFaster pos1 pos2).speed = some d → d ≠ 0 →
      ∃ t : ℚ, applyingDaysToPerfect pos1 pos2 a = some t ∧ t ≤ d) ∧
    (∀ d : ℚ, days_to_sign_exit (applyingSlower pos1 pos2).longitude
        (applyingSlower pos1 pos2).speed = some d → d ≠ 0 →
      ∃ t : ℚ, applyingDaysToPerfect pos1 pos2 a = some t ∧ t ≤ d) := by
  unfold is_applying_enhanced at h
  dsimp only at h
  split_ifs at h with h1 h2
  refine ⟨by exact_mod_cast of_decide_eq_true h, ?_, ?_⟩
  · intro d hd hdz
    rw [hd] at h1
    cases ht : applyingDaysToPerfect pos1 pos2 a with
    | none =>
      rw [ht] at h1
      exact absurd (by simp [truthyQ, gtInf, hdz]) h1
    | some t =>
      rw [ht] at h1
      refine ⟨t, rfl, ?_⟩
      by_contra hgt
      exact h1 (by simp [truthyQ, gtInf, hdz, lt_of_not_le hgt])
  · intro d hd hdz
    rw [hd] at h2
    cases ht : applyingDaysToPerfect pos1 pos2 a with
    | none =>
      rw [ht] at h2
      exact absurd (by simp [truthyQ, gtInf, hdz]) h2
    | some t =>
      rw [ht] at h2
      refine ⟨t, rfl, ?_⟩
      by_contra hgt
      exact h2 (by simp [truthyQ, gtInf, hdz, lt_of_not_le hgt])

/-- C8 witness: the invariant applied to a concrete applying square. -/
theorem C8_applying_invariant_witness :
    applyingFutureOrb stdCfg w8Pos1 w8Pos2 Aspect.square <
      applyingCurrentOrb w8Pos1 w8Pos2 Aspect.square :=
  (C8_applying_invariant stdCfg w8Pos1 w8Pos2 Aspect.square
    (by with_unfolding_all decide)).1

/-- C8 counterexample: a retrograde body sitting exactly on its sign
cusp has a directional sign-exit time of zero, which is falsy in
Python, so the exit check is skipped: the aspect is marked applying even
though its time to perfection (10/3 days) exceeds that body's
time to sign exit (0 days). -/
theorem C8_zero_exit_counterexample :
    is_applying_enhanced stdCfg c8Pos1 c8Pos2 Aspect.square = true ∧
    days_to_sign_exit (applyingFaster c8Pos1 c8Pos2).longitude
      (applyingFaster c8Pos1 c8Pos2).speed = some 0 ∧
    applyingDaysToPerfect c8Pos1 c8Pos2 Aspect.square = some (10/3) ∧
    ((10 : ℚ)/3 ≤ 0) = False := by
  with_unfolding_all decide

/-- C1 (amended): with the void-Moon override setting off, a chart whose
Moon is void with no sign exception is judged NO at confidence 85 unless
the clean-Moon-translation override holds (Moon applying to both
significators with non-negative dignity), in which case judgment
proceeds with the *running* confidence capped at 30. -/
theorem C1_void_moon_gate (cfg : Config) (chart : HoraryChart)
    (inp : JudgmentInputs)
    (hv : inp.ignore_void_moon = false)
    (hr : inp.ignore_radicality = true ∨ inp.radicality_valid = true)
    (hvoid : (is_moon_void_of_course_enhanced chart cfg).void = true)
    (hexc : (is_moon_void_of_course_enhanced chart cfg).exception = false) :
    (check_void_moon_overrides chart inp.significators = false →
      apply_enhanced_judgment cfg chart inp =
        { result := "NO", confidence := 85 }) ∧
    (check_void_moon_overrides chart inp.significators = true →
      apply_enhanced_judgment cfg chart inp =
        judgment_after_void cfg chart inp (min cfg.base_confidence 30)) := by
  unfold apply_enhanced_judgment
  have h1 : (!inp.ignore_radicality && !inp.radicality_valid) = false := by
    rcases hr with h | h <;> simp [h]
  rw [h1]
  simp only [Bool.false_eq_true, if_false, hv, Bool.not_false, if_true,
    hvoid, hexc, Bool.and_true, Bool.true_and]
  constructor <;> intro h5 <;> simp [h5]

set_option maxRecDepth 200000 in
/-- C1 witness: the gate applied to the void-Moon chart, once with
invalid significators (no override possible: hard NO at 85) and once
with the clean-translation override (running confidence capped). -/
theorem C1_void_moon_gate_witness :
    apply_enhanced_judgment stdCfg c1Chart c1NoSigInp =
      { result := "NO", confidence := 85 } ∧
    apply_enhanced_judgment stdCfg c1Chart c1Inp =
      judgment_after_void stdCfg c1Chart c1Inp (min stdCfg.base_confidence 30) :=
  ⟨(C1_void_moon_gate stdCfg c1Chart c1NoSigInp rfl (Or.inr rfl)
      (by with_unfolding_all decide) (by with_unfolding_all decide)).1 rfl,
   (C1_void_moon_gate stdCfg c1Chart c1Inp rfl (Or.inr rfl)
      (by with_unfolding_all decide) (by with_unfolding_all decide)).2
     (by with_unfolding_all decide)⟩

set_option maxRecDepth 200000 in
/-- C1 counterexample (to the 30% cap on positive outcomes): on the
`c1Chart` the Moon is void with no exception, the override setting is
off, the clean-Moon-translation override holds — and the judgment,
decided by the Moon's next-aspect branch (which returns its own
confidence, never re-capped), is YES at confidence 60 > 30. -/
theorem C1_cap_exceeded_counterexample :
    (is_moon_void_of_course_enhanced c1Chart stdCfg).void = true ∧
    (is_moon_void_of_course_enhanced c1Chart stdCfg).exception = false ∧
    c1Inp.ignore_void_moon = false ∧
    check_void_moon_overrides c1Chart c1Inp.significators = true ∧
    apply_enhanced_judgment stdCfg c1Chart c1Inp =
      { result := "YES", confidence := 60 } ∧
    ((60 : ℚ) ≤ 30) = False := by
  with_unfolding_all decide

/-- The combustion-conjunction guard can never fire: `hasattr(pos,
'solar_condition')` is false for every `PlanetPosition`. -/
theorem combustion_conjunction_guard_false (chart : HoraryChart)
    (querent quesited : Planet) (da : DirectAspect) :
    combustion_conjunction_guard chart querent quesited da = false := by
  unfold combustion_conjunction_guard
  dsimp only
  split
  · simp [hasattrSolarCondition]
  · simp

/-- C2 (code_bug): the Perfection Detector can never return a combustion
denial — the reclassification guard tests a `solar_condition` attribute
that `PlanetPosition` objects never have — and on the spec's seed
scenario (querent = Sun, quesited = Mercury combust at 0.5°, applying
Sun-Mercury conjunction) it returns an ordinary favorable direct
perfection at the configured confidence instead. -/
theorem C2_combustion_denial_unreachable :
    (∀ (cfg : Config) (chart : HoraryChart) (querent quesited : Planet)
      (boost : ℚ),
      ((check_enhanced_perfection cfg chart querent quesited boost).ptype ==
        "combustion_denial") = false) ∧
    check_enhanced_perfection stdCfg c2Chart Planet.sun Planet.mercury 15 =
      { perfects := true, ptype := "direct", favorable := true
        confidence := 75, reception := "unilateral"
        aspect := some { aspect := .conjunction, orb := 1/2
                         degrees_to_exact := 1/2 } } ∧
    c2Chart.solar_analyses.lookup Planet.mercury =
      some { distance_from_sun := 1/2, condition := .combustion } := by
  refine ⟨?_, by with_unfolding_all decide, by with_unfolding_all decide⟩
  intro cfg chart querent quesited boost
  unfold check_enhanced_perfection
  cases hfa : find_applying_aspect chart querent quesited with
  | none =>
    dsimp only
    split_ifs <;> rfl
  | some da =>
    dsimp only
    rw [combustion_conjunction_guard_false]
    simp only [Bool.false_eq_true, if_false]
    split_ifs <;> rfl

/-- The hard-aspect test of the translation-of-light check compares
`Aspect` enum members with strings and is identically false. -/
theorem translation_hard_flag_false (qa qda : AspectInfo) :
    translation_hard_flag qa qda = false := by
  unfold translation_hard_flag
  simp [aspectEqPyStr]

/-- A successful translator step is always marked favorable (its
`favorable` flag is the negation of the dead hard-aspect test). -/
theorem translation_step_favorable (cfg : Config) (chart : HoraryChart)
    (querent quesited p : Planet) (r : TranslationResult)
    (h : translation_step cfg chart querent quesited p = some r) :
    r.favorable = true := by
  unfold translation_step at h
  dsimp only at h
  split_ifs at h
  all_goals first
    | exact Option.noConfusion h
    | (split at h
       all_goals first
         | exact Option.noConfusion h
         | (split at h
            all_goals first
              | exact Option.noConfusion h
              | (split_ifs at h
                 all_goals first
                   | exact Option.noConfusion h
                   | (cases h
                      simp [translation_hard_flag_false]))))

/-- C6 (code_bug): a translation of light is never marked unfavorable
and never gets the hard-aspect confidence reduction — the square/opposition
test compares enum members with strings — and on the concrete chart
where the Moon separates from a *square* to Venus (L1) and applies by
*square* to Mars (L7), the returned translation is favorable at the
full confidence 65. -/
theorem C6_hard_aspect_translation_still_favorable :
    (∀ (cfg : Config) (chart : HoraryChart) (querent quesited : Planet),
      (check_enhanced_translation_of_light cfg chart querent
        quesited).favorable = true) ∧
    check_enhanced_translation_of_light stdCfg c6Chart Planet.venus
        Planet.mars =
      { found := true, translator := some Planet.moon, favorable := true
        confidence := 65, combustion_penalty := 0 } ∧
    ({ planet1 := Planet.moon, planet2 := Planet.mars
       aspect := Aspect.square, orb := 4, applying := true
       degrees_to_exact := 4 } : AspectInfo) ∈ c6Chart.aspects ∧
    ({ planet1 := Planet.moon, planet2 := Planet.venus
       aspect := Aspect.square, orb := 3, applying := false
       degrees_to_exact := 3 } : AspectInfo) ∈ c6Chart.aspects := by
  refine ⟨?_, by with_unfolding_all decide, by with_unfolding_all decide,
    by with_unfolding_all decide⟩
  intro cfg chart querent quesited
  unfold check_enhanced_translation_of_light
  cases hf : chart.planetOrder.findSome?
      (translation_step cfg chart querent quesited) with
  | none => rfl
  | some r =>
    obtain ⟨p, hp, hstep⟩ := List.exists_of_findSome?_eq_some hf
    exact translation_step_favorable cfg chart querent quesited p r hstep

/-- Counting over a `filterMap` is bounded by counting the preimages. -/
theorem countP_filterMap_le {α β : Type _} (f : α → Option β) (P : β → Bool)
    (Q : α → Bool) (h : ∀ a b, f a = some b → P b = true → Q a = true)
    (l : List α) : (l.filterMap f).countP P ≤ l.countP Q := by
  induction l with
  | nil => simp
  | cons a l ih =>
    rw [List.filterMap_cons, List.countP_cons]
    cases hf : f a with
    | none => exact le_trans ih (Nat.le_add_right _ _)
    | some b =>
      rw [List.countP_cons]
      by_cases hp : P b = true
      · have hq := h a b hf hp
        simp only [hp, hq, if_true]
        omega
      · simp only [Bool.not_eq_true] at hp
        simp only [hp, Bool.false_eq_true, if_false]
        have := ih
        omega

/-- An aspect produced for a pair carries exactly that pair. -/
theorem pairAspect_planets (cfg : Config) (p q : Planet)
    (pos1 pos2 : PlanetPosition) (a : AspectInfo)
    (h : pairAspect cfg p q pos1 pos2 = some a) :
    a.planet1 = p ∧ a.planet2 = q := by
  unfold pairAspect at h
  dsimp only at h
  rcases Option.map_eq_some'.mp h with ⟨x, hx, rfl⟩
  exact ⟨rfl, rfl⟩

/-- Unfolding equation of `orderedPairs` on a cons cell. -/
theorem orderedPairs_cons (x : Planet) (xs : List Planet) :
    orderedPairs (x :: xs) = xs.map (fun y => (x, y)) ++ orderedPairs xs :=
  rfl

/-- Both members of an ordered pair come from the source list. -/
theorem mem_orderedPairs (l : List Planet) (pq : Planet × Planet)
    (h : pq ∈ orderedPairs l) : pq.1 ∈ l ∧ pq.2 ∈ l := by
  induction l with
  | nil => simp [orderedPairs] at h
  | cons x xs ih =>
    rw [orderedPairs_cons, List.mem_append] at h
    rcases h with h | h
    · rcases List.mem_map.mp h with ⟨y, hy, rfl⟩
      exact ⟨List.mem_cons_self _ _, List.mem_cons_of_mem _ hy⟩
    · rcases ih h with ⟨h1, h2⟩
      exact ⟨List.mem_cons_of_mem _ h1, List.mem_cons_of_mem _ h2⟩

/-- Every emitted aspect's two bodies come from the planet list. -/
theorem mem_calculate_aspects (cfg : Config) (l : List Planet)
    (planets : Planet → PlanetPosition) (a : AspectInfo)
    (h : a ∈ calculate_enhanced_aspects cfg l planets) :
    a.planet1 ∈ l ∧ a.planet2 ∈ l := by
  unfold calculate_enhanced_aspects at h
  rcases List.mem_filterMap.mp h with ⟨pq, hpq, hsome⟩
  rcases pairAspect_planets cfg pq.1 pq.2 _ _ a hsome with ⟨h1, h2⟩
  rcases mem_orderedPairs l pq hpq with ⟨m1, m2⟩
  rw [h1, h2]
  exact ⟨m1, m2⟩

/-- The aspect list over `x :: xs` splits into the pairs anchored at `x`
and the aspect list over `xs`. -/
theorem calculate_aspects_cons (cfg : Config) (x : Planet) (xs : List Planet)
    (planets : Planet → PlanetPosition) :
    calculate_enhanced_aspects cfg (x :: xs) planets =
      xs.filterMap (fun y => pairAspect cfg x y (planets x) (planets y)) ++
        calculate_enhanced_aspects cfg xs planets := by
  unfold calculate_enhanced_aspects
  rw [orderedPairs_cons, List.filterMap_append, List.filterMap_map]
  rfl

/-- Unpacking `matchesPair`. -/
theorem matchesPair_cases (a : AspectInfo) (p q : Planet)
    (h : matchesPair a p q = true) :
    (a.planet1 = p ∧ a.planet2 = q) ∨ (a.planet1 = q ∧ a.planet2 = p) := by
  unfold matchesPair at h
  simp only [Bool.or_eq_true, Bool.and_eq_true, beq_iff_eq] at h
  exact h

/-- C7 (amended): over any duplicate-free planet list the Aspect Engine
emits at most one aspect per unordered pair, and every emitted aspect's
orb lies within the pair's moiety-based bound (or the legacy per-aspect
orb with luminary bonuses when the moiety table is absent); but the
emitted aspect is the *first in the fixed enumeration order*
conjunction, sextile, square, trine, opposition whose separation is
within orb — not necessarily the one closest to exact. -/
theorem C7_one_aspect_per_pair (cfg : Config) (l : List Planet)
    (planets : Planet → PlanetPosition) (hnd : l.Nodup) :
    (∀ p q : Planet,
      countPairAspects (calculate_enhanced_aspects cfg l planets) p q ≤ 1) ∧
    (∀ a ∈ calculate_enhanced_aspects cfg l planets,
      a.orb ≤
        (let m := calculate_moiety_based_orb cfg a.planet1 a.planet2 a.aspect
         if m == 0 then
           cfg.aspect_orb a.aspect +
             (if a.planet1 == Planet.sun || a.planet2 == Planet.sun then
               cfg.sun_orb_bonus else 0) +
             (if a.planet1 == Planet.moon || a.planet2 == Planet.moon then
               cfg.moon_orb_bonus else 0)
         else m)) := by
  constructor
  · revert hnd
    induction l with
    | nil =>
      intro _ p q
      simp [calculate_enhanced_aspects, orderedPairs, countPairAspects]
    | cons x xs ih =>
      intro hnd p q
      rw [List.nodup_cons] at hnd
      obtain ⟨hx, hxs⟩ := hnd
      rw [countPairAspects, calculate_aspects_cons, List.countP_append]
      by_cases hp : x = p
      · have htail : (calculate_enhanced_aspects cfg xs planets).countP
            (matchesPair · p q) = 0 := by
          rw [List.countP_eq_zero]
          intro a ha hm
          have hmem := mem_calculate_aspects cfg xs planets a ha
          rcases matchesPair_cases a p q hm with ⟨h1, _⟩ | ⟨_, h2⟩
          · exact hx (by rw [hp, ← h1]; exact hmem.1)
          · exact hx (by rw [hp, ← h2]; exact hmem.2)
        have hhead : (xs.filterMap (fun y =>
            pairAspect cfg x y (planets x) (planets y))).countP
              (matchesPair · p q) ≤ 1 := by
          refine le_trans (countP_filterMap_le _ _ (· == q) ?_ xs) ?_
          · intro y a hfa hm
            rcases pairAspect_planets cfg x y _ _ a hfa with ⟨h1, h2⟩
            simp only [beq_iff_eq]
            rcases matchesPair_cases a p q hm with ⟨_, hq2⟩ | ⟨hxq, hyp⟩
            · exact h2.symm.trans hq2
            · exact (h2.symm.trans hyp).trans
                (hp.symm.trans (h1.symm.trans hxq))
          · rw [← List.count]
            exact List.nodup_iff_count_le_one.mp hxs q
        omega
      · by_cases hq : x = q
        · have htail : (calculate_enhanced_aspects cfg xs planets).countP
              (matchesPair · p q) = 0 := by
            rw [List.countP_eq_zero]
            intro a ha hm
            have hmem := mem_calculate_aspects cfg xs planets a ha
            rcases matchesPair_cases a p q hm with ⟨_, h2⟩ | ⟨h1, _⟩
            · exact hx (by rw [hq, ← h2]; exact hmem.2)
            · exact hx (by rw [hq, ← h1]; exact hmem.1)
          have hhead : (xs.filterMap (fun y =>
              pairAspect cfg x y (planets x) (planets y))).countP
                (matchesPair · p q) ≤ 1 := by
            refine le_trans (countP_filterMap_le _ _ (· == p) ?_ xs) ?_
            · intro y a hfa hm
              rcases pairAspect_planets cfg x y _ _ a hfa with ⟨h1, h2⟩
              simp only [beq_iff_eq]
              rcases matchesPair_cases a p q hm with ⟨hxp, _⟩ | ⟨_, hyp⟩
              · exact absurd (h1.symm.trans hxp) hp
              · exact h2.symm.trans hyp
            · rw [← List.count]
              exact List.nodup_iff_count_le_one.mp hxs p
          omega
        · have hhead : (xs.filterMap (fun y =>
              pairAspect cfg x y (planets x) (planets y))).countP
                (matchesPair · p q) = 0 := by
            rw [List.countP_eq_zero]
            intro a ha hm
            rcases List.mem_filterMap.mp ha with ⟨y, hy, hfa⟩
            rcases pairAspect_planets cfg x y _ _ a hfa with ⟨h1, h2⟩
            rcases matchesPair_cases a p q hm with ⟨hxp, _⟩ | ⟨hxq, _⟩
            · exact hp (h1.symm.trans hxp)
            · exact hq (h1.symm.trans hxq)
          have htail := ih hxs p q
          rw [countPairAspects] at htail
          omega
  · intro a ha
    unfold calculate_enhanced_aspects at ha
    rcases List.mem_filterMap.mp ha with ⟨pq, hpq, hsome⟩
    unfold pairAspect at hsome
    dsimp only at hsome
    rcases Option.map_eq_some'.mp hsome with ⟨asp, hfind, rfl⟩
    have hpred := List.find?_some hfind
    dsimp only
    exact of_decide_eq_true hpred

/-- C7 witness: at most one aspect between Moon and Venus on the C1
chart. -/
theorem C7_one_aspect_per_pair_witness :
    countPairAspects (calculate_enhanced_aspects stdCfg stdOrder c1Planets)
      Planet.moon Planet.venus ≤ 1 :=
  (C7_one_aspect_per_pair stdCfg stdOrder c1Planets (by decide)).1
    Planet.moon Planet.venus

/-- C7 counterexample (to "closest to exact"): with uniform 15° moieties
and an 80° separation, both the sextile (orb distance 20 ≤ 21) and the
square (orb distance 10 ≤ 25.5) are within orb, yet the engine emits the
sextile — the first in enumeration order — although the square is
strictly closer to exact. -/
theorem C7_not_closest_counterexample :
    |(c7Planets .venus).longitude - (c7Planets .mars).longitude| = 80 ∧
    calculate_enhanced_aspects c7Cfg [Planet.venus, Planet.mars] c7Planets =
      [{ planet1 := .venus, planet2 := .mars, aspect := .sextile, orb := 20
         applying := false, degrees_to_exact := 20 }] ∧
    |(80 : ℚ) - Aspect.degrees .square| ≤
      calculate_moiety_based_orb c7Cfg .venus .mars .square ∧
    |(80 : ℚ) - Aspect.degrees .square| <
      |(80 : ℚ) - Aspect.degrees .sextile| := by
  with_unfolding_all decide

end Horary
